import Mathlib

/-!
Verification model of `silx/io/specfileh5.py` (SpecFile → HDF5-style virtual
mapping layer).

Conventions of the shallow embedding:

* Python strings are modelled as `List Char` (abbreviated `Str`).
* The module's regular expressions are all anchored prefix matches
  (`re.match`) built from literals, digit runs `[0-9]+`, the class `[^/]+`,
  an optional trailing slash `/?` and the anchor `$`.  Each pattern is
  translated into a deterministic parser on `List Char`; determinism is
  faithful here because in every pattern a greedy run (`[0-9]+`, `[^/]+`)
  is followed by a character that the run cannot consume, so the regex
  engine's backtracking never changes the outcome.  Python's `$` also
  matches just before a trailing newline; names in a SpecFile come from a
  line-oriented text format and never contain a newline, so `$` is
  modelled as end-of-input.
* Python exceptions are modelled with `Except String`, `None` with
  `Option`.
* Numeric scalars held by the backing `SpecFile` reader are modelled
  exactly (`ℚ`) plus an `inf` constructor for the `float("inf")` sentinel
  of an absent motor position.  Numpy dtypes are modelled as a tag
  (kind × itemsize); the float32 coercion changes only that tag in the
  model, since it applies uniformly to every element of a dataset.
-/

namespace SpecFileH5

/-- Python strings are modelled as lists of characters. -/
abbrev Str : Type := List Char

/-- Membership of a character in the regex class `[0-9]`. -/
def isDigitC (c : Char) : Bool := decide ('0' ≤ c ∧ c ≤ '9')

/-- Consume one literal character (a literal in a regex). -/
def lit (c : Char) : Str → Option Str
  | [] => none
  | d :: r => if d = c then some r else none

/-- Consume a literal string (a sequence of regex literals). -/
def lits : Str → Str → Option Str
  | [], l => some l
  | p :: ps, l =>
    match l with
    | [] => none
    | c :: r => if c = p then lits ps r else none

/-- Remainder after a greedy digit run. -/
def dropDigits (l : Str) : Str := l.dropWhile isDigitC

/-- Consume `[0-9]+` (greedy, at least one digit). -/
def digits1 : Str → Option Str
  | [] => none
  | c :: r => if isDigitC c then some (dropDigits r) else none

/-- Model of the `$` anchor (end of input; see header note on newlines). -/
def endM (l : Str) : Bool := decide (l = [])

/-- Model of `/?$`: either the end, or a single `/` and then the end. -/
def optSlashEnd (l : Str) : Bool := decide (l = [] ∨ l = ['/'])

/-- Model of `[^/]+$`: a non-empty remainder with no slash. -/
def tailName (l : Str) : Bool := decide (l ≠ [] ∧ ∀ c ∈ l, c ≠ '/')

/-- Consume the common prefix `/[0-9]+\.[0-9]+` of all scan-level patterns. -/
def scanP (l : Str) : Option Str :=
  (((lit '/' l).bind digits1).bind (lit '.')).bind digits1

/-- Test the remainder of an optional parse result (`none` means no match). -/
def oTest (fin : Str → Bool) (o : Option Str) : Bool :=
  match o with
  | some r => fin r
  | none => false

/-- Characters of `"/instrument"`. -/
def sInstrument : Str := ['/', 'i', 'n', 's', 't', 'r', 'u', 'm', 'e', 'n', 't']

/-- Characters of `"/instrument/positioners"`. -/
def sPositioners : Str :=
  sInstrument ++ ['/', 'p', 'o', 's', 'i', 't', 'i', 'o', 'n', 'e', 'r', 's']

/-- Characters of `"/instrument/positioners/"`. -/
def sPositionersSlash : Str := sPositioners ++ ['/']

/-- Characters of `"/measurement"`. -/
def sMeasurement : Str := ['/', 'm', 'e', 'a', 's', 'u', 'r', 'e', 'm', 'e', 'n', 't']

/-- Characters of `"/measurement/"`. -/
def sMeasurementSlash : Str := sMeasurement ++ ['/']

/-- Characters of `"/measurement/mca_"`. -/
def sMeasMca : Str := sMeasurementSlash ++ ['m', 'c', 'a', '_']

/-- Characters of `"/instrument/mca_"`. -/
def sInstrMca : Str := sInstrument ++ ['/', 'm', 'c', 'a', '_']

/-- Characters of `"/info"`. -/
def sInfo : Str := ['/', 'i', 'n', 'f', 'o']

/-- Characters of `"/info/"`. -/
def sInfoSlash : Str := sInfo ++ ['/']

/-- Characters of `"/title"`. -/
def sTitle : Str := ['/', 't', 'i', 't', 'l', 'e']

/-- Characters of `"/start_time"`. -/
def sStartTime : Str := ['/', 's', 't', 'a', 'r', 't', '_', 't', 'i', 'm', 'e']

/-- Characters of `"/data"`. -/
def sData : Str := ['/', 'd', 'a', 't', 'a']

/-- Characters of `"/calibration"`. -/
def sCalibration : Str := ['/', 'c', 'a', 'l', 'i', 'b', 'r', 'a', 't', 'i', 'o', 'n']

/-- Characters of `"/channels"`. -/
def sChannels : Str := ['/', 'c', 'h', 'a', 'n', 'n', 'e', 'l', 's']

/-- Characters of `"/preset_time"`. -/
def sPresetTime : Str := ['/', 'p', 'r', 'e', 's', 'e', 't', '_', 't', 'i', 'm', 'e']

/-- Characters of `"/elapsed_time"`. -/
def sElapsedTime : Str := ['/', 'e', 'l', 'a', 'p', 's', 'e', 'd', '_', 't', 'i', 'm', 'e']

/-- Characters of `"/live_time"`. -/
def sLiveTime : Str := ['/', 'l', 'i', 'v', 'e', '_', 't', 'i', 'm', 'e']

/-- Shared shape of the patterns `/[0-9]+\.[0-9]+<pre>[0-9]+<suf><fin>`:
match the scan prefix, the literal `pre`, a captured digit run (the
`mca_([0-9]+)` capture), the literal `suf`, and finish with `fin`.
Returns the captured digit run. -/
def mcaPat (pre suf : Str) (fin : Str → Bool) (l : Str) : Option Str :=
  match (scanP l).bind (lits pre) with
  | none => none
  | some r =>
    let d := r.takeWhile isDigitC
    if d.isEmpty then none
    else
      match lits suf (dropDigits r) with
      | some rest => if fin rest then some d else none
      | none => none

/-- Pattern `/$` (the regex `root_pattern`). -/
def root_pattern (l : Str) : Bool := oTest endM (lit '/' l)

/-- Pattern `/[0-9]+\.[0-9]+/?$` (the regex `scan_pattern`). -/
def scan_pattern (l : Str) : Bool := oTest optSlashEnd (scanP l)

/-- Pattern `/[0-9]+\.[0-9]+/instrument/?$`. -/
def instrument_pattern (l : Str) : Bool :=
  oTest optSlashEnd ((scanP l).bind (lits sInstrument))

/-- Pattern `/[0-9]+\.[0-9]+/instrument/positioners/?$`. -/
def positioners_group_pattern (l : Str) : Bool :=
  oTest optSlashEnd ((scanP l).bind (lits sPositioners))

/-- Pattern `/[0-9]+\.[0-9]+/measurement/?$`. -/
def measurement_group_pattern (l : Str) : Bool :=
  oTest optSlashEnd ((scanP l).bind (lits sMeasurement))

/-- Pattern `/[0-9]+\.[0-9]+/measurement/mca_[0-9]+/?$`. -/
def measurement_mca_group_pattern (l : Str) : Bool :=
  (mcaPat sMeasMca [] optSlashEnd l).isSome

/-- Pattern `/[0-9]+\.[0-9]+/instrument/mca_[0-9]+/?$`. -/
def instrument_mca_group_pattern (l : Str) : Bool :=
  (mcaPat sInstrMca [] optSlashEnd l).isSome

/-- Capture of `/[0-9]+\.[0-9]+/measurement/mca_([0-9]+)/info/?$` (link to a
group); returns the analyser index digits. -/
def measurement_mca_info_capture (l : Str) : Option Str :=
  mcaPat sMeasMca sInfo optSlashEnd l

/-- Pattern form of `measurement_mca_info_pattern`. -/
def measurement_mca_info_pattern (l : Str) : Bool :=
  (measurement_mca_info_capture l).isSome

/-- Pattern `/[0-9]+\.[0-9]+/title$`. -/
def title_pattern (l : Str) : Bool :=
  oTest endM ((scanP l).bind (lits sTitle))

/-- Pattern `/[0-9]+\.[0-9]+/start_time$`. -/
def start_time_pattern (l : Str) : Bool :=
  oTest endM ((scanP l).bind (lits sStartTime))

/-- Capture of `/[0-9]+\.[0-9]+/instrument/positioners/([^/]+)$`; returns the
motor name. -/
def positioners_data_capture (l : Str) : Option Str :=
  match (scanP l).bind (lits sPositionersSlash) with
  | some r => if tailName r then some r else none
  | none => none

/-- Pattern form of `positioners_data_pattern`. -/
def positioners_data_pattern (l : Str) : Bool :=
  (positioners_data_capture l).isSome

/-- Capture of `/[0-9]+\.[0-9]+/measurement/([^/]+)$`; returns the column
label. -/
def measurement_data_capture (l : Str) : Option Str :=
  match (scanP l).bind (lits sMeasurementSlash) with
  | some r => if tailName r then some r else none
  | none => none

/-- Pattern form of `measurement_data_pattern`. -/
def measurement_data_pattern (l : Str) : Bool :=
  (measurement_data_capture l).isSome

/-- Capture of `/[0-9]+\.[0-9]+/instrument/mca_([0-9]+)/data$`. -/
def instrument_mca_data_capture (l : Str) : Option Str :=
  mcaPat sInstrMca sData endM l

/-- Pattern form of `instrument_mca_data_pattern`. -/
def instrument_mca_data_pattern (l : Str) : Bool :=
  (instrument_mca_data_capture l).isSome

/-- Pattern `/[0-9]+\.[0-9]+/instrument/mca_[0-9]+/calibration$`. -/
def instrument_mca_calib_pattern (l : Str) : Bool :=
  (mcaPat sInstrMca sCalibration endM l).isSome

/-- Pattern `/[0-9]+\.[0-9]+/instrument/mca_[0-9]+/channels$`. -/
def instrument_mca_chann_pattern (l : Str) : Bool :=
  (mcaPat sInstrMca sChannels endM l).isSome

/-- Pattern `/[0-9]+\.[0-9]+/instrument/mca_[0-9]+/preset_time$`. -/
def instrument_mca_preset_t_pattern (l : Str) : Bool :=
  (mcaPat sInstrMca sPresetTime endM l).isSome

/-- Pattern `/[0-9]+\.[0-9]+/instrument/mca_[0-9]+/elapsed_time$`. -/
def instrument_mca_elapsed_t_pattern (l : Str) : Bool :=
  (mcaPat sInstrMca sElapsedTime endM l).isSome

/-- Pattern `/[0-9]+\.[0-9]+/instrument/mca_[0-9]+/live_time$`. -/
def instrument_mca_live_t_pattern (l : Str) : Bool :=
  (mcaPat sInstrMca sLiveTime endM l).isSome

/-- Capture of `/[0-9]+\.[0-9]+/measurement/mca_([0-9]+)/data$` (link to a
dataset); returns the analyser index digits. -/
def measurement_mca_data_capture (l : Str) : Option Str :=
  mcaPat sMeasMca sData endM l

/-- Pattern form of `measurement_mca_data_pattern`. -/
def measurement_mca_data_pattern (l : Str) : Bool :=
  (measurement_mca_data_capture l).isSome

/-- Capture of `/[0-9]+\.[0-9]+/measurement/mca_[0-9]+/info/([^/]+)$`
(link to a dataset); returns the member name after `info/`. -/
def measurement_mca_info_dataset_capture (l : Str) : Option Str :=
  match (scanP l).bind (lits sMeasMca) with
  | none => none
  | some r =>
    if (r.takeWhile isDigitC).isEmpty then none
    else
      match lits sInfoSlash (dropDigits r) with
      | some rest => if tailName rest then some rest else none
      | none => none

/-- Pattern form of `measurement_mca_info_dataset_pattern`. -/
def measurement_mca_info_dataset_pattern (l : Str) : Bool :=
  (measurement_mca_info_dataset_capture l).isSome

/-- Check whether a string matches any pattern in a list
(`_bulk_match` in the source). -/
def _bulk_match (l : Str) (patterns : List (Str → Bool)) : Bool :=
  patterns.any (fun p => p l)

/-- Classifier `is_group`: the seven group-name patterns. -/
def is_group (l : Str) : Bool :=
  _bulk_match l
    [root_pattern, scan_pattern, instrument_pattern,
     positioners_group_pattern, measurement_group_pattern,
     measurement_mca_group_pattern, instrument_mca_group_pattern]

/-- Classifier `is_dataset`: the ten dataset-name patterns, with the
exception rule that `/<scan>/measurement/mca_<i>` is not interpreted as a
data column. -/
def is_dataset (l : Str) : Bool :=
  if measurement_mca_group_pattern l then false
  else
    _bulk_match l
      [title_pattern, start_time_pattern,
       positioners_data_pattern, measurement_data_pattern,
       instrument_mca_data_pattern, instrument_mca_calib_pattern,
       instrument_mca_chann_pattern,
       instrument_mca_preset_t_pattern, instrument_mca_elapsed_t_pattern,
       instrument_mca_live_t_pattern]

/-- Classifier `is_link_to_group`: only the `measurement/mca_<i>/info`
pattern. -/
def is_link_to_group (l : Str) : Bool :=
  if measurement_mca_info_pattern l then true else false

/-- Classifier `is_link_to_dataset`: the two link-to-dataset patterns. -/
def is_link_to_dataset (l : Str) : Bool :=
  _bulk_match l
    [measurement_mca_data_pattern, measurement_mca_info_dataset_pattern]

/-- Numeric value held by the backing `SpecFile` reader: an exact number, or
the `float("inf")` sentinel returned for a motor position absent from the
`#P` header lines. -/
inductive SFV where
  | fin : ℚ → SFV
  | inf : SFV
deriving DecidableEq

/-- Numpy dtype kinds used by `SpecFileH5Dataset.__new__`: byte string `S`,
unicode `U`, signed int `i`, unsigned int `u`, float `f`, bool `b`,
complex `c`, object `O`, void `V`. -/
inductive DKind where
  | S | U | i | u | f | b | c | O | V
deriving DecidableEq

/-- Numpy dtype: kind plus itemsize in bytes (float64 = `⟨f, 8⟩`). -/
structure Dtype where
  kind : DKind
  itemsize : Nat
deriving DecidableEq

/-- Payload of an array-like value (scalar, 1-D, 2-D, or string data). -/
inductive Payload where
  | pstr : Str → Payload
  | pscalar : SFV → Payload
  | pvec : List SFV → Payload
  | pmat : List (List SFV) → Payload
deriving DecidableEq

/-- Array-like value with its dtype tag. -/
structure NDArray where
  dtype : Dtype
  payload : Payload
deriving DecidableEq

/-- Dtype of the numeric arrays produced by the backing SpecFile reader
(double precision). -/
def float64 : Dtype := ⟨DKind.f, 8⟩

/-- One scan of the backing SpecFile, as consumed by `specfileh5.py`
(external collaborator `silx.io.specfile.SpecFile`; this is its read
contract, not code of the module under study). `data` is the scan data
as rows (data lines) of columns; `motor_positions` is the
position-by-name map of the `#P` header lines, where an absent motor
reads as `+inf`. -/
structure Scan where
  header_S : Option Str
  header_D : Option Str
  file_header_D : Option Str
  labels : List Str
  data : List (List SFV)
  motor_names : List Str
  motor_positions : List (Str × SFV)
  mca : List (List SFV)
  mca_calibration : List SFV
  mca_channels : List SFV
  mca_header_CTIME : Option Str
deriving DecidableEq

/-- The backing SpecFile: an ordered association of scan keys to scans. -/
structure SpecFile where
  scans : List (Str × Scan)
deriving DecidableEq

/-- Scan lookup (`sf[scan_key]`). -/
def SpecFile.get (sf : SpecFile) (k : Str) : Option Scan := sf.scans.lookup k

/-- Scan membership (`scan_key in sf`). -/
def SpecFile.hasKey (sf : SpecFile) (k : Str) : Bool := (sf.get k).isSome

/-- Scan key list (`sf.keys()`). -/
def SpecFile.keyList (sf : SpecFile) : List Str := sf.scans.map Prod.fst

/-- Number of scan data lines (`scan.data.shape[0]`). -/
def Scan.shape0 (s : Scan) : Nat := s.data.length

/-- Number of scan data columns (`scan.data.shape[1]`; the backing reader
produces a rectangular 2-D array, so the first row's length is the
column count). -/
def Scan.shape1 (s : Scan) : Nat := (s.data.headD []).length

/-- Column of the data matrix by label (`scan.data_column_by_name`); the
backing reader raises for an unknown label. -/
def Scan.data_column_by_name (s : Scan) (label : Str) : Except String (List SFV) :=
  match s.labels.findIdx? (fun lb => lb == label) with
  | some j => .ok (s.data.map (fun row => row.getD j (SFV.fin 0)))
  | none => .error "SfNoMcaError: no column with that label"

/-- Motor position by name (`scan.motor_position_by_name`); absent from the
`#P` header lines reads as the `+inf` sentinel. -/
def Scan.motor_position_by_name (s : Scan) (m : Str) : SFV :=
  (s.motor_positions.lookup m).getD SFV.inf

/-- Numeric value of a digit run (`int(...)` on a `[0-9]+` capture). -/
def digitsToNat (l : Str) : Nat :=
  l.foldl (fun n c => n * 10 + (c.toNat - '0'.toNat)) 0

/-- Capture of `re.match(r"/([0-9]+\.[0-9]+)", item_name)`
(`_get_scan_key_in_name`): the scan key at the start of a path, or `none`. -/
def _get_scan_key_in_name (l : Str) : Option Str :=
  match lit '/' l with
  | none => none
  | some r =>
    let a := r.takeWhile isDigitC
    if a.isEmpty then none
    else
      match lit '.' (dropDigits r) with
      | none => none
      | some r2 =>
        let b := r2.takeWhile isDigitC
        if b.isEmpty then none else some (a ++ '.' :: b)

/-- Helper for `_get_mca_index_in_name`: does `l` start with `mca_` and at
least one digit?  If so return the greedy digit run after `mca_`. -/
def mcaHere (l : Str) : Option Str :=
  match lits ['m', 'c', 'a', '_'] l with
  | none => none
  | some r =>
    let d := r.takeWhile isDigitC
    if d.isEmpty then none else some d

/-- Helper for `_get_mca_index_in_name`: the digit run of the last
occurrence of `/mca_[0-9]` in `l` (the greedy `.*` picks the rightmost
occurrence; `.` does not match a newline, so occurrences after a newline
are unreachable). -/
def lastMca : Str → Option Str
  | [] => none
  | c :: rest =>
    if c = '\n' then none
    else
      match lastMca rest with
      | some d => some d
      | none => if c = '/' then mcaHere rest else none

/-- Capture of `re.match(r"/.*/mca_([0-9]+)[^0-9]*", item_name)`
(`_get_mca_index_in_name`): the MCA analyser index embedded in a path. -/
def _get_mca_index_in_name (l : Str) : Option Nat :=
  match l with
  | '/' :: rest => (lastMca rest).map digitsToNat
  | _ => none

/-- Motor name embedded in a positioner path (`_get_motor_in_name`). -/
def _get_motor_in_name (l : Str) : Option Str := positioners_data_capture l

/-- Data column label embedded in a measurement path
(`_get_data_column_label_in_name`), with the `mca_<i>` exception rule. -/
def _get_data_column_label_in_name (l : Str) : Option Str :=
  if measurement_mca_group_pattern l then none
  else measurement_data_capture l

/-- Check `_mca_analyser_in_scan`: the analyser index is valid for the
scan.  Mirrors the source: `KeyError` for a missing scan, Python's
`ZeroDivisionError` when the scan has no data lines, and the
`assert number_of_MCA_spectra % number_of_data_lines == 0` consistency
check. -/
def _mca_analyser_in_scan (sf : SpecFile) (scan_key : Str) (mca_analyser_index : Nat) :
    Except String Bool :=
  match sf.get scan_key with
  | none => .error "KeyError: scan key does not exist in SpecFile"
  | some scan =>
    let number_of_MCA_spectra := scan.mca.length
    let number_of_data_lines := scan.shape0
    if number_of_data_lines = 0 then
      .error "ZeroDivisionError: integer modulo by zero"
    else if number_of_MCA_spectra % number_of_data_lines ≠ 0 then
      .error "AssertionError"
    else
      .ok (decide (mca_analyser_index < number_of_MCA_spectra / number_of_data_lines))

/-- Check `_motor_in_scan`: the motor name exists in the scan. -/
def _motor_in_scan (sf : SpecFile) (scan_key : Str) (motor_name : Str) :
    Except String Bool :=
  match sf.get scan_key with
  | none => .error "KeyError: scan key does not exist in SpecFile"
  | some scan => .ok (scan.motor_names.contains motor_name)

/-- Check `_column_label_in_scan`: the column label exists in the scan. -/
def _column_label_in_scan (sf : SpecFile) (scan_key : Str) (column_label : Str) :
    Except String Bool :=
  match sf.get scan_key with
  | none => .error "KeyError: scan key does not exist in SpecFile"
  | some scan => .ok (scan.labels.contains column_label)

/-- Whitespace test for Python's `str.split()` with no argument. -/
def isWs (c : Char) : Bool := decide (c = ' ' ∨ c = '\t' ∨ c = '\n' ∨ c = '\r')

/-- Python `str.split()` with no argument: split on whitespace runs,
dropping empty fields. -/
def splitWs : Str → List Str
  | [] => []
  | c :: r =>
    if isWs c then splitWs r
    else (c :: (r.takeWhile (fun d => ¬ isWs d))) :: splitWs (r.dropWhile (fun d => ¬ isWs d))
termination_by l => l.length
decreasing_by
  · simp
  · simp only [List.length_cons]
    exact Nat.lt_succ_of_le ((List.dropWhile_sublist _).length_le)

/-- Unsigned decimal-with-fraction value: `digits [ '.' digits ]`. -/
def parseUFrac (l : Str) : Option ℚ :=
  let ip := l.takeWhile isDigitC
  if ip.isEmpty then none
  else
    match dropDigits l with
    | [] => some ((digitsToNat ip : ℚ))
    | '.' :: fr =>
      if fr.all isDigitC then
        some ((digitsToNat ip : ℚ) + (digitsToNat fr : ℚ) / ((10 : ℚ) ^ fr.length))
      else none
    | _ => none

/-- Model of Python `float(token)` restricted to the decimal literals
(optional sign, digits, optional fraction) that occur on `@CTIME` header
lines; anything else raises `ValueError`. -/
def pyFloat (t : Str) : Except String SFV :=
  match t with
  | '-' :: r =>
    match parseUFrac r with
    | some q => .ok (SFV.fin (-q))
    | none => .error "ValueError: could not convert string to float"
  | '+' :: r =>
    match parseUFrac r with
    | some q => .ok (SFV.fin q)
    | none => .error "ValueError: could not convert string to float"
  | r =>
    match parseUFrac r with
    | some q => .ok (SFV.fin q)
    | none => .error "ValueError: could not convert string to float"

/-- Character set stripped by `ctime_line.lstrip("@CTIME ")` (Python's
`lstrip` strips any leading character from the set, not the prefix
string). -/
def ctimeStripSet : Str := ['@', 'C', 'T', 'I', 'M', 'E', ' ']

/-- Model of `_parse_ctime`: parse `@CTIME %f %f %f` into
`(preset_time, live_time, elapsed_time)`. -/
def _parse_ctime (ctime_line : Str) : Except String (SFV × SFV × SFV) :=
  let stripped := ctime_line.dropWhile (fun ch => ctimeStripSet.contains ch)
  match splitWs stripped with
  | [t1, t2, t3] => do
    let a ← pyFloat t1
    let b ← pyFloat t2
    let c ← pyFloat t3
    return (a, b, c)
  | _ => .error "ValueError: Incorrect format for @CTIME header line"

/-- Decidable equality for `Except` results, used to evaluate the model on
concrete inputs. -/
instance {ε α : Type} [DecidableEq ε] [DecidableEq α] : DecidableEq (Except ε α) :=
  fun a b =>
    match a, b with
    | .ok x, .ok y =>
      if h : x = y then isTrue (by rw [h]) else isFalse (by simp [h])
    | .error e, .error e2 =>
      if h : e = e2 then isTrue (by rw [h]) else isFalse (by simp [h])
    | .ok _, .error _ => isFalse (by simp)
    | .error _, .ok _ => isFalse (by simp)

/-- Month abbreviations exactly as listed in `spec_date_to_iso8601`
(note: the source list has 11 entries). -/
def months : List Str :=
  ["Jan".data, "Feb".data, "Mar".data, "Apr".data, "Jun".data, "Jul".data,
   "Aug".data, "Sep".data, "Oct".data, "Nov".data, "Dec".data]

/-- Weekday abbreviations of `spec_date_to_iso8601`. -/
def days : List Str :=
  ["Mon".data, "Tue".data, "Wed".data, "Thu".data, "Fri".data, "Sat".data, "Sun".data]

/-- Named groups produced by the two date regexes of
`spec_date_to_iso8601`. -/
structure DateGroups where
  month : Option Str
  month_nb : Option Str
  year : Str
  day_nb : Str
  hh : Str
  mm : Str
  ss : Str
  tz : Option Str
deriving DecidableEq

/-- Match one alternative from a list of literal words (regex alternation
`(Mon|Tue|…)`; alternatives are tried left to right). -/
def parseAlt : List Str → Str → Option (Str × Str)
  | [], _ => none
  | a :: rest, l =>
    match lits a l with
    | some r => some (a, r)
    | none => parseAlt rest l

/-- Match `[lo-hi][0-9]` (a bounded two-digit field such as `[0-3]\d`). -/
def parse2 (lo hi : Char) (l : Str) : Option (Str × Str) :=
  match l with
  | c1 :: c2 :: r =>
    if decide (lo ≤ c1 ∧ c1 ≤ hi) && isDigitC c2 then some ([c1, c2], r) else none
  | _ => none

/-- Match `\d{4}` (the year field). -/
def parse4d (l : Str) : Option (Str × Str) :=
  match l with
  | c1 :: c2 :: c3 :: c4 :: r =>
    if isDigitC c1 && isDigitC c2 && isDigitC c3 && isDigitC c4 then
      some ([c1, c2, c3, c4], r)
    else none
  | _ => none

/-- Match the optional time zone `([+-]\d\d:\d\d){0,1}`.  Returns the
captured zone and the remainder, or `(none, l)` when absent; this is
faithful to the greedy regex because a successful zone match consumes a
leading `+`/`-` that no following regex element could match instead. -/
def parseTz (l : Str) : Option Str × Str :=
  match l with
  | s :: d1 :: d2 :: ':' :: d3 :: d4 :: r =>
    if decide (s = '+' ∨ s = '-') && isDigitC d1 && isDigitC d2 && isDigitC d3 && isDigitC d4 then
      (some [s, d1, d2, ':', d3, d4], r)
    else (none, l)
  | _ => (none, l)

/-- Match of the first date template
`{days} {months} {day_nb} {hh}:{mm}:{ss}{tz} {year}` (an `re.match`, so
trailing characters after the year are ignored). -/
def matchTpl1 (l : Str) : Option DateGroups := do
  let (_, l) ← parseAlt days l
  let l ← lit ' ' l
  let (mon, l) ← parseAlt months l
  let l ← lit ' ' l
  let (dnb, l) ← parse2 '0' '3' l
  let l ← lit ' ' l
  let (hh, l) ← parse2 '0' '2' l
  let l ← lit ':' l
  let (mm, l) ← parse2 '0' '5' l
  let l ← lit ':' l
  let (ss, l) ← parse2 '0' '5' l
  let (tz, l) := parseTz l
  let l ← lit ' ' l
  let (yr, _) ← parse4d l
  pure ⟨some mon, none, yr, dnb, hh, mm, ss, tz⟩

/-- Match of the second date template
`{days} {year}/{month_nb}/{day_nb} {hh}:{mm}:{ss}{tz}` (trailing
characters are ignored). -/
def matchTpl2 (l : Str) : Option DateGroups := do
  let (_, l) ← parseAlt days l
  let l ← lit ' ' l
  let (yr, l) ← parse4d l
  let l ← lit '/' l
  let (mnb, l) ← parse2 '0' '1' l
  let l ← lit '/' l
  let (dnb, l) ← parse2 '0' '3' l
  let l ← lit ' ' l
  let (hh, l) ← parse2 '0' '2' l
  let l ← lit ':' l
  let (mm, l) ← parse2 '0' '5' l
  let l ← lit ':' l
  let (ss, l) ← parse2 '0' '5' l
  let (tz, _) := parseTz l
  pure ⟨none, some mnb, yr, dnb, hh, mm, ss, tz⟩

/-- Python `"{0:02d}".format(n)` for the month numbers that occur here. -/
def pad2 (n : Nat) : Str := (if n < 10 then ['0'] else []) ++ (Nat.repr n).data

/-- Model of `spec_date_to_iso8601(date, zone=None)`. -/
def spec_date_to_iso8601 (date : Str) (zone : Option Str) : Except String Str :=
  let grp :=
    match matchTpl1 date with
    | some g => some g
    | none => matchTpl2 date
  match grp with
  | none => .error "ValueError: Date format not recognized"
  | some g =>
    let month : Str :=
      match g.month_nb with
      | some m => m
      | none =>
        match g.month with
        | some mon => pad2 ((months.findIdx? (fun x => x == mon)).getD 0 + 1)
        | none => []
    let tz : Option Str :=
      match g.tz with
      | some t => some t
      | none => zone
    .ok (g.year ++ '-' :: month ++ '-' :: g.day_nb ++ 'T' :: g.hh ++ ':' :: g.mm
         ++ ':' :: g.ss ++ tz.getD [])

example :
    spec_date_to_iso8601 "Thu Feb 11 09:54:35 2016".data none
      = .ok "2016-02-11T09:54:35".data := by decide

example :
    spec_date_to_iso8601 "Sat 2015/03/14 03:53:50".data none
      = .ok "2015-03-14T03:53:50".data := by decide

/-- Attribute table of `_get_attrs_dict`, in the source's insertion order
(Python dicts preserve it); the first matching pattern wins. -/
def pattern_attrs : List ((Str → Bool) × List (Str × Str)) :=
  [(root_pattern, [("NX_class".data, "NXroot".data)]),
   (scan_pattern, [("NX_class".data, "NXentry".data)]),
   (title_pattern, []),
   (start_time_pattern, []),
   (instrument_pattern, [("NX_class".data, "NXinstrument".data)]),
   (positioners_group_pattern, [("NX_class".data, "NXcollection".data)]),
   (positioners_data_pattern, []),
   (instrument_mca_group_pattern, [("NX_class".data, "NXdetector".data)]),
   (instrument_mca_data_pattern, [("interpretation".data, "spectrum".data)]),
   (instrument_mca_calib_pattern, []),
   (instrument_mca_chann_pattern, []),
   (measurement_group_pattern, [("NX_class".data, "NXcollection".data)]),
   (measurement_data_pattern, []),
   (measurement_mca_group_pattern, []),
   (measurement_mca_data_pattern, [("interpretation".data, "spectrum".data)]),
   (measurement_mca_info_pattern, [("NX_class".data, "NXdetector".data)])]

/-- Model of `_get_attrs_dict`: the attribute dictionary of the first
matching pattern, and Python `None` (here `none`) when no pattern in the
table matches. -/
def _get_attrs_dict (name : Str) : Option (List (Str × Str)) :=
  (pattern_attrs.find? (fun pa => pa.1 name)).map Prod.snd

example : _get_attrs_dict "/".data = some [("NX_class".data, "NXroot".data)] := by decide
example : _get_attrs_dict "/1.1/instrument/mca_0/preset_time".data = none := by decide

/-- In-memory dataset object (`SpecFileH5Dataset`): the coerced array, the
full path name, and the attribute dictionary. -/
structure SFH5Dataset where
  arr : NDArray
  name : Str
  attrs : Option (List (Str × Str))
deriving DecidableEq

/-- Model of `SpecFileH5Dataset.__new__`: byte strings (`S`) and unicode
(`U`) are kept as they are; int, unsigned int and float data is coerced
to 32-bit float; any other kind (bool, complex, object, void) raises
`TypeError`.  A plain Python string input has already been turned into a
byte-string array (`numpy.string_`), i.e. a `⟨S, _⟩` dtype. -/
def specFileH5Dataset_new (array_like : NDArray) (name : Str) :
    Except String SFH5Dataset :=
  let data_kind := array_like.dtype.kind
  if data_kind = DKind.S then
    .ok ⟨array_like, name, _get_attrs_dict name⟩
  else if data_kind = DKind.U then
    .ok ⟨array_like, name, _get_attrs_dict name⟩
  else if data_kind = DKind.i ∨ data_kind = DKind.u ∨ data_kind = DKind.f then
    .ok ⟨⟨⟨DKind.f, 4⟩, array_like.payload⟩, name, _get_attrs_dict name⟩
  else
    .error "TypeError: Unexpected data type (expected int-, string- or float-like data)"

/-- Python `range(start, stop, step)` for a positive step. -/
def pyRange (start stop step : Nat) : List Nat :=
  List.range' start ((stop - start + (step - 1)) / step) step

/-- Model of `_demultiplex_mca`: the 2-D array of all spectra of one
analyser, gathered from the interleaved `scan.mca` list.  The number of
spectra must be a multiple of the number of scan data lines
(`assert`, a fatal `AssertionError` otherwise); with no data lines
Python's `%` raises `ZeroDivisionError`, and with zero analysers
`range` rejects its zero step. -/
def _demultiplex_mca (scan : Scan) (analyser_index : Nat) :
    Except String (List (List SFV)) :=
  let mca_data := scan.mca
  let number_of_MCA_spectra := mca_data.length
  let number_of_scan_data_lines := scan.shape0
  if number_of_scan_data_lines = 0 then
    .error "ZeroDivisionError: integer modulo by zero"
  else if number_of_MCA_spectra % number_of_scan_data_lines ≠ 0 then
    .error "AssertionError"
  else
    let number_of_analysers := number_of_MCA_spectra / number_of_scan_data_lines
    if number_of_analysers = 0 then
      .error "ValueError: range() arg 3 must not be zero"
    else
      .ok ((pyRange analyser_index number_of_MCA_spectra number_of_analysers).map
        (fun i => mca_data.getD i []))

/-- Model of `_dataset_builder`: synthesize the dataset for a classified
dataset path from the backing scan, then wrap it as a
`SpecFileH5Dataset` (float32 coercion). -/
def _dataset_builder (name : Str) (sf : SpecFile) : Except String SFH5Dataset := do
  let scan_key ←
    match _get_scan_key_in_name name with
    | some k => pure k
    | none => Except.error "KeyError: None is not a scan key"
  let scan ←
    match sf.get scan_key with
    | some s => pure s
    | none => Except.error "KeyError: scan key does not exist in SpecFile"
  let array_like : Option NDArray ←
    if title_pattern name then
      match scan.header_S with
      | some s => pure (some ⟨⟨DKind.S, s.length⟩, Payload.pstr s⟩)
      | none => Except.error "KeyError: S"
    else if start_time_pattern name then do
      let spec_date ←
        match scan.header_D with
        | some d => pure d
        | none =>
          match scan.file_header_D with
          | some d => pure d
          | none => Except.error "KeyError: D"
      let iso ← spec_date_to_iso8601 spec_date none
      pure (some ⟨⟨DKind.S, iso.length⟩, Payload.pstr iso⟩)
    else if positioners_data_pattern name then do
      let motor_name := (positioners_data_capture name).getD []
      if scan.labels.contains motor_name then do
        let col ← scan.data_column_by_name motor_name
        pure (some ⟨float64, Payload.pvec col⟩)
      else
        pure (some ⟨float64, Payload.pscalar (scan.motor_position_by_name motor_name)⟩)
    else if measurement_data_pattern name then do
      let column_name := (measurement_data_capture name).getD []
      let col ← scan.data_column_by_name column_name
      pure (some ⟨float64, Payload.pvec col⟩)
    else if instrument_mca_data_pattern name then do
      let analyser_index := digitsToNat ((instrument_mca_data_capture name).getD [])
      let mat ← _demultiplex_mca scan analyser_index
      pure (some ⟨float64, Payload.pmat mat⟩)
    else if instrument_mca_calib_pattern name then
      pure (some ⟨float64, Payload.pvec scan.mca_calibration⟩)
    else if instrument_mca_chann_pattern name then
      pure (some ⟨float64, Payload.pvec scan.mca_channels⟩)
    else
      match scan.mca_header_CTIME with
      | some ctime_line => do
        let pel ← _parse_ctime ctime_line
        if instrument_mca_preset_t_pattern name then
          pure (some ⟨float64, Payload.pscalar pel.1⟩)
        else if instrument_mca_live_t_pattern name then
          pure (some ⟨float64, Payload.pscalar pel.2.1⟩)
        else if instrument_mca_elapsed_t_pattern name then
          pure (some ⟨float64, Payload.pscalar pel.2.2⟩)
        else
          pure none
      | none => pure none
  match array_like with
  | none => Except.error "KeyError: Name does not match any known dataset"
  | some arr => specFileH5Dataset_new arr name

/-- Model of `_link_to_dataset_builder`.  The source's second branch reads
`elif measurement_mca_info_dataset_pattern:` — testing the compiled
pattern object itself, which is always truthy — so for any name that is
not a `measurement/mca_<i>/data` link it unconditionally calls
`measurement_mca_info_dataset_pattern.match(name)` and dereferences the
result.  Note the `info/<x>` branch only produces data for
`calibration`, `channels` and (via the instrument timing patterns,
which can never match a `/measurement/` path) nothing else: in
particular `info/data` falls through to `KeyError`. -/
def _link_to_dataset_builder (name : Str) (sf : SpecFile) : Except String SFH5Dataset := do
  let scan_key ←
    match _get_scan_key_in_name name with
    | some k => pure k
    | none => Except.error "KeyError: None is not a scan key"
  let scan ←
    match sf.get scan_key with
    | some s => pure s
    | none => Except.error "KeyError: scan key does not exist in SpecFile"
  let array_like : Option NDArray ←
    if measurement_mca_data_pattern name then do
      let analyser_index := digitsToNat ((measurement_mca_data_capture name).getD [])
      let mat ← _demultiplex_mca scan analyser_index
      pure (some ⟨float64, Payload.pmat mat⟩)
    else
      match measurement_mca_info_dataset_capture name with
      | none => Except.error "AttributeError: NoneType object has no attribute group"
      | some mca_hdr_type =>
        if mca_hdr_type = "calibration".data then
          pure (some ⟨float64, Payload.pvec scan.mca_calibration⟩)
        else if mca_hdr_type = "channels".data then
          pure (some ⟨float64, Payload.pvec scan.mca_channels⟩)
        else
          match scan.mca_header_CTIME with
          | some ctime_line => do
            let pel ← _parse_ctime ctime_line
            if instrument_mca_preset_t_pattern name then
              pure (some ⟨float64, Payload.pscalar pel.1⟩)
            else if instrument_mca_live_t_pattern name then
              pure (some ⟨float64, Payload.pscalar pel.2.1⟩)
            else if instrument_mca_elapsed_t_pattern name then
              pure (some ⟨float64, Payload.pscalar pel.2.2⟩)
            else
              pure none
          | none => pure none
  match array_like with
  | none => Except.error "KeyError: Name does not match any known dataset"
  | some arr => specFileH5Dataset_new arr name

/-- Static submember lists of the virtual hierarchy. -/
def scan_submembers : List Str :=
  ["title".data, "start_time".data, "instrument".data, "measurement".data]

/-- Static submembers of an instrument group (plus dynamic `mca_<i>`). -/
def instrument_submembers : List Str := ["positioners".data]

/-- Static submembers of a `measurement/mca_<i>` group. -/
def measurement_mca_submembers : List Str := ["data".data, "info".data]

/-- Static submembers of an `instrument/mca_<i>` group. -/
def instrument_mca_submembers : List Str :=
  ["data".data, "calibration".data, "channels".data]

/-- Object returned by an indexed access: a (link-to-)group identified by
its full path, or a (link-to-)dataset. `SpecFileH5LinkToGroup` and
`SpecFileH5LinkToDataset` are subclasses that traversal distinguishes by
`isinstance`, modelled as separate constructors. -/
inductive Entry where
  | group : Str → Entry
  | linkToGroup : Str → Entry
  | dataset : SFH5Dataset → Entry
  | linkToDataset : SFH5Dataset → Entry
deriving DecidableEq

/-- Python `name.rstrip("/")`. -/
def rstripSlash (l : Str) : Str := (l.reverse.dropWhile (fun ch => ch = '/')).reverse

/-- Resolution of a relative key against a group name
(`self.name.rstrip("/") + "/" + key`). -/
def resolveRel (gname key : Str) : Str := rstripSlash gname ++ '/' :: key

/-- Python `key.startswith("/")`. -/
def startsWithSlash (key : Str) : Bool :=
  match key with
  | '/' :: _ => true
  | _ => false

/-- Constructor of `SpecFileH5Group(name, specfileh5)`: for a non-root
name, `__init__` looks the scan up (`self._scan = self._sfh5._sf[scan_key]`)
and the backing reader raises `KeyError` when it is missing. -/
def mkGroup (sf : SpecFile) (name : Str) : Except String Entry :=
  if name = "/".data then .ok (Entry.group name)
  else
    match _get_scan_key_in_name name with
    | none => .error "KeyError: None is not a scan key"
    | some sk =>
      if sf.hasKey sk then .ok (Entry.group name)
      else .error "KeyError: scan key does not exist in SpecFile"

/-- Constructor of `SpecFileH5LinkToGroup` (same `__init__` as its parent
class). -/
def mkLinkToGroup (sf : SpecFile) (name : Str) : Except String Entry :=
  match _get_scan_key_in_name name with
  | none => .error "KeyError: None is not a scan key"
  | some sk =>
    if sf.hasKey sk then .ok (Entry.linkToGroup name)
    else .error "KeyError: scan key does not exist in SpecFile"

/-- Model of the `keys()` methods.  Dispatch mirrors Python's method
resolution: a `SpecFileH5LinkToGroup` (an object whose name is a
`measurement/mca_<i>/info` link, the only way such an object is built)
uses the override returning the target's members; the root returns the
scan list; otherwise `SpecFileH5Group.keys` runs with its `assert`
checks.  A branch of the Python code that returns `None` (which would
break iteration at the call site) is modelled as an error. -/
def groupKeys (sf : SpecFile) (gname : Str) : Except String (List Str) :=
  if is_link_to_group gname then
    if measurement_mca_info_pattern gname then .ok instrument_mca_submembers
    else .error "TypeError: keys returned None"
  else if gname = "/".data then .ok sf.keyList
  else
    match _get_scan_key_in_name gname with
    | none => .error "KeyError: None is not a scan key"
    | some sk =>
      match sf.get sk with
      | none => .error "KeyError: scan key does not exist in SpecFile"
      | some scan =>
        if scan_pattern gname then .ok scan_submembers
        else if positioners_group_pattern gname then .ok scan.motor_names
        else if measurement_mca_group_pattern gname then .ok measurement_mca_submembers
        else if instrument_mca_group_pattern gname then
          if scan.mca_header_CTIME.isSome then
            .ok (instrument_mca_submembers
                 ++ ["preset_time".data, "elapsed_time".data, "live_time".data])
          else .ok instrument_mca_submembers
        else
          if scan.shape1 ≠ scan.labels.length then .error "AssertionError"
          else if scan.shape0 = 0 then .error "ZeroDivisionError: integer modulo by zero"
          else if scan.mca.length % scan.shape0 ≠ 0 then .error "AssertionError"
          else
            let number_of_MCA_analysers := scan.mca.length / scan.shape0
            let mca_list := (List.range number_of_MCA_analysers).map
              (fun i => "mca_".data ++ (Nat.repr i).data)
            if measurement_group_pattern gname then .ok (scan.labels ++ mca_list)
            else if instrument_pattern gname then .ok (instrument_submembers ++ mca_list)
            else .error "TypeError: keys returned None"

/-- Model of `SpecFileH5Group.__contains__` after the key has been made
absolute. -/
def containsAbs (sf : SpecFile) (key : Str) : Except String Bool :=
  if ¬ is_group key ∧ ¬ is_dataset key ∧ ¬ is_link_to_group key ∧ ¬ is_link_to_dataset key then
    .ok false
  else
    match _get_scan_key_in_name key with
    | none => .ok false
    | some scan_key =>
      if ¬ sf.hasKey scan_key then .ok false
      else do
        let mcaOk ←
          match _get_mca_index_in_name key with
          | some idx => _mca_analyser_in_scan sf scan_key idx
          | none => pure true
        if ¬ mcaOk then pure false
        else do
          let motorOk ←
            match _get_motor_in_name key with
            | some m => _motor_in_scan sf scan_key m
            | none => pure true
          if ¬ motorOk then pure false
          else do
            let colOk ←
              match _get_data_column_label_in_name key with
              | some lb => _column_label_in_scan sf scan_key lb
              | none => pure true
            if ¬ colOk then pure false
            else
              if ("preset_time".data).isSuffixOf key
                 ∨ ("elapsed_time".data).isSuffixOf key
                 ∨ ("live_time".data).isSuffixOf key then
                pure (((sf.get scan_key).map
                  (fun s => s.mca_header_CTIME.isSome)).getD false)
              else
                pure true

/-- Model of `SpecFileH5Group.__contains__`: absolute keys must lie below
this group's name; relative keys are resolved against it. -/
def groupContains (sf : SpecFile) (gname key : Str) : Except String Bool :=
  if startsWithSlash key then
    if ¬ gname.isPrefixOf key then .ok false
    else containsAbs sf key
  else containsAbs sf (resolveRel gname key)

/-- Model of `SpecFileH5Group.__getitem__`: resolve the key to a full path
(raising `KeyError` for an absolute path outside this group), then
dispatch on the grammar classification. -/
def groupGetitem (sf : SpecFile) (gname key : Str) : Except String Entry :=
  let full_key? : Except String Str :=
    if ¬ startsWithSlash key then .ok (resolveRel gname key)
    else if gname.isPrefixOf key then .ok key
    else .error "KeyError: key is not a child of this group"
  match full_key? with
  | .error e => .error e
  | .ok full_key =>
    if is_group full_key then mkGroup sf full_key
    else if is_dataset full_key then
      (Entry.dataset <$> _dataset_builder full_key sf)
    else if is_link_to_group full_key then mkLinkToGroup sf full_key
    else if is_link_to_dataset full_key then
      (Entry.linkToDataset <$> _link_to_dataset_builder full_key sf)
    else .error "KeyError: unrecognized group or dataset"

/-- Loop body of `visit`: iterate over the member names of the group
`gname`.  The callback is invoked unless the member is a link to a
dataset or a link to a group; a non-`None` result is returned from this
level (but the source discards the value of the recursive
`self[member_name].visit(func)` call, so it does not propagate
upwards); recursion descends only into members that are groups and not
`SpecFileH5LinkToGroup` instances — `recurse` is the recursive
`visit` call on a subgroup's name. -/
def visitList {α : Type} (sf : SpecFile) (f : Str → Option α)
    (recurse : Str → Except String (Option α × List Str)) :
    Str → List Str → Except String (Option α × List Str)
  | _, [] => .ok (none, [])
  | gname, member_name :: rest =>
    match groupGetitem sf gname member_name with
    | .error e => .error e
    | .ok member =>
      let mname := resolveRel gname member_name
      let called : Bool := !(is_link_to_dataset mname) && !(is_link_to_group mname)
      let ret : Option α := if called then f mname else none
      let tr0 : List Str := if called then [mname] else []
      match ret with
      | some v => .ok (some v, tr0)
      | none =>
        let sub : Except String (Option α × List Str) :=
          match member with
          | Entry.group sub_name => recurse sub_name
          | _ => .ok (none, [])
        match sub with
        | .error e => .error e
        | .ok (_, trSub) =>
          match visitList sf f recurse gname rest with
          | .error e => .error e
          | .ok (r, trRest) => .ok (r, tr0 ++ trSub ++ trRest)

/-- Model of `SpecFileH5Group.visit(func)`.  Besides the Python return
value it also returns the trace of names that were passed to `func`, in
call order, so that theorems can speak about which members the callback
was invoked on.  `fuel` bounds the recursion depth (Python's recursion
limit); the traversal of the virtual tree has depth at most 5. -/
def visitAux {α : Type} (sf : SpecFile) (f : Str → Option α) :
    Nat → Str → Except String (Option α × List Str)
  | 0, _ => .error "RecursionError: maximum recursion depth exceeded"
  | Nat.succ fuel, gname =>
    match groupKeys sf gname with
    | .error e => .error e
    | .ok ks => visitList sf f (visitAux sf f fuel) gname ks

/-- Loop body of `visititems`; see `visitList`.  Unlike `visit`, the only
guard before calling the callback is
`not is_link_to_dataset(member.name)`: members that are links to groups
are passed to `func`. -/
def visititemsList {α : Type} (sf : SpecFile) (f : Str → Entry → Option α)
    (recurse : Str → Except String (Option α × List Str)) :
    Str → List Str → Except String (Option α × List Str)
  | _, [] => .ok (none, [])
  | gname, member_name :: rest =>
    match groupGetitem sf gname member_name with
    | .error e => .error e
    | .ok member =>
      let mname := resolveRel gname member_name
      let called : Bool := !(is_link_to_dataset mname)
      let ret : Option α := if called then f mname member else none
      let tr0 : List Str := if called then [mname] else []
      match ret with
      | some v => .ok (some v, tr0)
      | none =>
        let sub : Except String (Option α × List Str) :=
          match member with
          | Entry.group sub_name => recurse sub_name
          | _ => .ok (none, [])
        match sub with
        | .error e => .error e
        | .ok (_, trSub) =>
          match visititemsList sf f recurse gname rest with
          | .error e => .error e
          | .ok (r, trRest) => .ok (r, tr0 ++ trSub ++ trRest)

/-- Model of `SpecFileH5Group.visititems(func)`, with the trace of names
passed to `func`. -/
def visititemsAux {α : Type} (sf : SpecFile) (f : Str → Entry → Option α) :
    Nat → Str → Except String (Option α × List Str)
  | 0, _ => .error "RecursionError: maximum recursion depth exceeded"
  | Nat.succ fuel, gname =>
    match groupKeys sf gname with
    | .error e => .error e
    | .ok ks => visititemsList sf f (visititemsAux sf f fuel) gname ks

/-- Test that a remainder cannot extend a greedy digit run. -/
def headNotDigit : Str → Bool
  | [] => true
  | c :: _ => ! isDigitC c

/-- Non-empty all-digit string (one half of a scan key, or an analyser
index). -/
def isDigitStr (l : Str) : Bool := ! l.isEmpty && l.all isDigitC

/-- Well-formed member-name component (motor name, column label, …):
non-empty and — since a SpecFile name cannot contain a path separator —
free of `/`. -/
def goodName (l : Str) : Bool := decide (l ≠ [] ∧ ∀ c ∈ l, c ≠ '/')

theorem takeWhile_digits (a r : Str) (ha : a.all isDigitC = true)
    (hr : headNotDigit r = true) : (a ++ r).takeWhile isDigitC = a := by
  induction a with
  | nil =>
    cases r with
    | nil => simp
    | cons c t =>
      simp only [headNotDigit, Bool.not_eq_true'] at hr
      simp [List.takeWhile_cons, hr]
  | cons c a ih =>
    simp only [List.all_cons, Bool.and_eq_true] at ha
    simp [List.takeWhile_cons, ha.1, ih ha.2]

theorem dropWhile_digits (a r : Str) (ha : a.all isDigitC = true)
    (hr : headNotDigit r = true) : dropDigits (a ++ r) = r := by
  induction a with
  | nil =>
    cases r with
    | nil => simp [dropDigits]
    | cons c t =>
      simp only [headNotDigit, Bool.not_eq_true'] at hr
      simp [dropDigits, List.dropWhile_cons, hr]
  | cons c a ih =>
    simp only [List.all_cons, Bool.and_eq_true] at ha
    simpa [dropDigits, List.dropWhile_cons, ha.1] using ih ha.2

theorem digits1_eq (a r : Str) (ha : isDigitStr a = true)
    (hr : headNotDigit r = true) : digits1 (a ++ r) = some r := by
  cases a with
  | nil => simp [isDigitStr] at ha
  | cons c t =>
    simp only [isDigitStr, List.all_cons, Bool.and_eq_true] at ha
    simp [digits1, ha.2.1, dropWhile_digits t r ha.2.2 hr]

theorem isEmpty_of_isDigitStr (a : Str) (ha : isDigitStr a = true) :
    a.isEmpty = false := by
  cases a with
  | nil => simp [isDigitStr] at ha
  | cons c t => simp

theorem scanP_eq (a b r : Str) (ha : isDigitStr a = true)
    (hb : isDigitStr b = true) (hr : headNotDigit r = true) :
    scanP ('/' :: (a ++ '.' :: (b ++ r))) = some r := by
  have h1 : digits1 (a ++ '.' :: (b ++ r)) = some ('.' :: (b ++ r)) :=
    digits1_eq a _ ha (by simp [headNotDigit, isDigitC])
  simp [scanP, lit, h1, digits1_eq b r hb hr]

theorem scanP_eq_nil (a b : Str) (ha : isDigitStr a = true)
    (hb : isDigitStr b = true) : scanP ('/' :: (a ++ '.' :: b)) = some [] := by
  have := scanP_eq a b [] ha hb (by simp [headNotDigit])
  simpa using this

theorem lits_sound (p : Str) : ∀ l r : Str, lits p l = some r → l = p ++ r := by
  induction p with
  | nil => intro l r h; simpa [lits] using h
  | cons c t ih =>
    intro l r h
    cases l with
    | nil => simp [lits] at h
    | cons d l2 =>
      simp only [lits] at h
      by_cases hd : d = c
      · simp only [hd, if_pos rfl] at h
        simp [hd, ih l2 r h]
      · simp [hd] at h

theorem lits_self_append (p : Str) : ∀ l : Str, lits p (p ++ l) = some l := by
  induction p with
  | nil => intro l; simp [lits]
  | cons c t ih => intro l; simp [lits, ih l]

theorem lits_append_split (p q : Str) : ∀ l : Str,
    lits (p ++ q) l = (lits p l).bind (lits q) := by
  induction p with
  | nil => intro l; simp [lits]
  | cons c t ih =>
    intro l
    cases l with
    | nil => simp [lits]
    | cons d l2 =>
      by_cases hd : d = c
      · simp [lits, hd, ih l2]
      · simp [lits, hd]

theorem lits_slash_none (ps l : Str) (h : ∀ c ∈ l, ¬ c = '/') :
    lits ('/' :: ps) l = none := by
  cases l with
  | nil => simp [lits]
  | cons c t =>
    have := h c (by simp)
    simp [lits, this]

theorem tailName_of_goodName (m : Str) (hm : goodName m = true) :
    tailName m = true := by
  simp only [goodName, decide_eq_true_eq] at hm
  simp only [tailName, decide_eq_true_eq]
  exact hm

theorem tailName_false_of_mem (l : Str) (h : '/' ∈ l) : tailName l = false := by
  simp only [tailName, decide_eq_false_iff_not]
  intro hcon
  exact hcon.2 '/' h rfl

theorem endM_cons (c : Char) (l : Str) : endM (c :: l) = false := by
  simp [endM]

theorem endM_append_cons (a : Str) (c : Char) (l : Str) :
    endM (a ++ c :: l) = false := by
  simp [endM]

theorem optSlashEnd_slash_goodName (m : Str) (hm : goodName m = true) :
    optSlashEnd ('/' :: m) = false := by
  simp only [goodName, decide_eq_true_eq] at hm
  simp only [optSlashEnd, decide_eq_false_iff_not]
  rintro (h | h)
  · exact absurd h (by simp)
  · exact hm.1 (by simpa using h)

theorem digit_ne_slash (c : Char) (h : isDigitC c = true) : ¬ c = '/' := by
  simp only [isDigitC, decide_eq_true_eq] at h
  intro hc
  subst hc
  exact absurd h (by decide)

theorem tailName_no_slash (l : Str) (h : ¬ l = []) (h2 : ∀ c ∈ l, ¬ c = '/') :
    tailName l = true := by
  simp only [tailName, decide_eq_true_eq]
  exact ⟨h, fun c hc => h2 c hc⟩

theorem tailName_mca_digits (i : Str) (hi : isDigitStr i = true) :
    tailName ('m' :: 'c' :: 'a' :: '_' :: i) = true := by
  apply tailName_no_slash _ (by simp)
  intro c hc
  simp only [List.mem_cons] at hc
  rcases hc with rfl | rfl | rfl | rfl | hc
  · decide
  · decide
  · decide
  · decide
  · simp only [isDigitStr, Bool.and_eq_true, List.all_eq_true] at hi
    exact digit_ne_slash c (hi.2 c hc)

theorem takeWhile_digits_all (a : Str) (ha : a.all isDigitC = true) :
    a.takeWhile isDigitC = a := by
  have := takeWhile_digits a [] ha (by simp [headNotDigit])
  simpa using this

theorem dropDigits_all (a : Str) (ha : a.all isDigitC = true) :
    dropDigits a = [] := by
  have := dropWhile_digits a [] ha (by simp [headNotDigit])
  simpa using this

theorem all_of_isDigitStr (a : Str) (ha : isDigitStr a = true) :
    a.all isDigitC = true := by
  simp only [isDigitStr, Bool.and_eq_true] at ha
  exact ha.2

theorem takeWhile_digits_ds (a r : Str) (ha : isDigitStr a = true)
    (hr : headNotDigit r = true) : (a ++ r).takeWhile isDigitC = a :=
  takeWhile_digits a r (all_of_isDigitStr a ha) hr

theorem dropWhile_digits_ds (a r : Str) (ha : isDigitStr a = true)
    (hr : headNotDigit r = true) : dropDigits (a ++ r) = r :=
  dropWhile_digits a r (all_of_isDigitStr a ha) hr

theorem takeWhile_all_ds (a : Str) (ha : isDigitStr a = true) :
    a.takeWhile isDigitC = a :=
  takeWhile_digits_all a (all_of_isDigitStr a ha)

theorem dropDigits_all_ds (a : Str) (ha : isDigitStr a = true) :
    dropDigits a = [] :=
  dropDigits_all a (all_of_isDigitStr a ha)

theorem headNotDigit_nil : headNotDigit [] = true := rfl

theorem headNotDigit_slash (l : Str) : headNotDigit ('/' :: l) = true := rfl

theorem headNotDigit_dot (l : Str) : headNotDigit ('.' :: l) = true := rfl

theorem endM_nil : endM [] = true := rfl

theorem optSlashEnd_nil : optSlashEnd [] = true := rfl

theorem optSlashEnd_cons_cons (c d : Char) (l : Str) :
    optSlashEnd (c :: d :: l) = false := by
  simp [optSlashEnd]

theorem tailName_mca_append_slash (i y : Str) :
    tailName ('m' :: 'c' :: 'a' :: '_' :: (i ++ '/' :: y)) = false := by
  apply tailName_false_of_mem
  simp

/-- Paths produced by valid traversals of the virtual hierarchy: one
constructor per production of `keys()` (root; scans `a.b`; the four scan
members; motors under `positioners`; column labels and `mca_<i>` groups
under `measurement`; the members of the two MCA group flavours, with
`info/<x>` members coming from the link-to-group's `keys()`). -/
inductive VPath where
  | root : VPath
  | scan : Str → Str → VPath
  | title : Str → Str → VPath
  | startTime : Str → Str → VPath
  | instrument : Str → Str → VPath
  | measurement : Str → Str → VPath
  | positioners : Str → Str → VPath
  | positioner : Str → Str → Str → VPath
  | column : Str → Str → Str → VPath
  | measMca : Str → Str → Str → VPath
  | measMcaData : Str → Str → Str → VPath
  | measMcaInfo : Str → Str → Str → VPath
  | measMcaInfoSub : Str → Str → Str → Str → VPath
  | instMca : Str → Str → Str → VPath
  | instMcaData : Str → Str → Str → VPath
  | instMcaCalib : Str → Str → Str → VPath
  | instMcaChann : Str → Str → Str → VPath
  | instMcaPreset : Str → Str → Str → VPath
  | instMcaElapsed : Str → Str → Str → VPath
  | instMcaLive : Str → Str → Str → VPath
deriving DecidableEq

/-- Path string of a traversal-produced path (the names are concatenated
with `/` exactly as `__getitem__` resolves relative keys). -/
def VPath.path : VPath → Str
  | .root => ['/']
  | .scan a b => '/' :: (a ++ '.' :: b)
  | .title a b => '/' :: (a ++ '.' :: (b ++ sTitle))
  | .startTime a b => '/' :: (a ++ '.' :: (b ++ sStartTime))
  | .instrument a b => '/' :: (a ++ '.' :: (b ++ sInstrument))
  | .measurement a b => '/' :: (a ++ '.' :: (b ++ sMeasurement))
  | .positioners a b => '/' :: (a ++ '.' :: (b ++ sPositioners))
  | .positioner a b m => '/' :: (a ++ '.' :: (b ++ (sPositionersSlash ++ m)))
  | .column a b lb => '/' :: (a ++ '.' :: (b ++ (sMeasurementSlash ++ lb)))
  | .measMca a b i => '/' :: (a ++ '.' :: (b ++ (sMeasMca ++ i)))
  | .measMcaData a b i => '/' :: (a ++ '.' :: (b ++ (sMeasMca ++ (i ++ sData))))
  | .measMcaInfo a b i => '/' :: (a ++ '.' :: (b ++ (sMeasMca ++ (i ++ sInfo))))
  | .measMcaInfoSub a b i x =>
    '/' :: (a ++ '.' :: (b ++ (sMeasMca ++ (i ++ (sInfoSlash ++ x)))))
  | .instMca a b i => '/' :: (a ++ '.' :: (b ++ (sInstrMca ++ i)))
  | .instMcaData a b i => '/' :: (a ++ '.' :: (b ++ (sInstrMca ++ (i ++ sData))))
  | .instMcaCalib a b i => '/' :: (a ++ '.' :: (b ++ (sInstrMca ++ (i ++ sCalibration))))
  | .instMcaChann a b i => '/' :: (a ++ '.' :: (b ++ (sInstrMca ++ (i ++ sChannels))))
  | .instMcaPreset a b i => '/' :: (a ++ '.' :: (b ++ (sInstrMca ++ (i ++ sPresetTime))))
  | .instMcaElapsed a b i => '/' :: (a ++ '.' :: (b ++ (sInstrMca ++ (i ++ sElapsedTime))))
  | .instMcaLive a b i => '/' :: (a ++ '.' :: (b ++ (sInstrMca ++ (i ++ sLiveTime))))

/-- Well-formedness of the parameters of a traversal-produced path: scan
keys are `digits.digits`, analyser indices are digit runs, and member
names coming from the file (motors, labels, info members) are valid
names. -/
def VPath.wf : VPath → Bool
  | .root => true
  | .scan a b => isDigitStr a && isDigitStr b
  | .title a b => isDigitStr a && isDigitStr b
  | .startTime a b => isDigitStr a && isDigitStr b
  | .instrument a b => isDigitStr a && isDigitStr b
  | .measurement a b => isDigitStr a && isDigitStr b
  | .positioners a b => isDigitStr a && isDigitStr b
  | .positioner a b m => isDigitStr a && isDigitStr b && goodName m
  | .column a b lb => isDigitStr a && isDigitStr b && goodName lb
  | .measMca a b i => isDigitStr a && isDigitStr b && isDigitStr i
  | .measMcaData a b i => isDigitStr a && isDigitStr b && isDigitStr i
  | .measMcaInfo a b i => isDigitStr a && isDigitStr b && isDigitStr i
  | .measMcaInfoSub a b i x =>
    isDigitStr a && isDigitStr b && isDigitStr i && goodName x
  | .instMca a b i => isDigitStr a && isDigitStr b && isDigitStr i
  | .instMcaData a b i => isDigitStr a && isDigitStr b && isDigitStr i
  | .instMcaCalib a b i => isDigitStr a && isDigitStr b && isDigitStr i
  | .instMcaChann a b i => isDigitStr a && isDigitStr b && isDigitStr i
  | .instMcaPreset a b i => isDigitStr a && isDigitStr b && isDigitStr i
  | .instMcaElapsed a b i => isDigitStr a && isDigitStr b && isDigitStr i
  | .instMcaLive a b i => isDigitStr a && isDigitStr b && isDigitStr i

/-- Number of the four grammar classifiers that accept a name. -/
def clsCount (l : Str) : Nat :=
  (if is_group l then 1 else 0) + (if is_dataset l then 1 else 0)
    + (if is_link_to_group l then 1 else 0) + (if is_link_to_dataset l then 1 else 0)

set_option maxHeartbeats 2000000 in
/-- Claim C1: grammar partition.  Every path string produced by a valid
traversal of the virtual hierarchy is accepted by exactly one of the four
classifiers `is_group`, `is_dataset`, `is_link_to_group`,
`is_link_to_dataset`; and the exception rule holds: a path of the form
`/<scan>/measurement/mca_<i>` is classified as a group and not as a
dataset. -/
theorem grammar_partition :
    (∀ p : VPath, p.wf = true → clsCount p.path = 1)
    ∧ (∀ a b i : Str, isDigitStr a = true → isDigitStr b = true →
        isDigitStr i = true →
        is_group (VPath.path (VPath.measMca a b i)) = true
        ∧ is_dataset (VPath.path (VPath.measMca a b i)) = false) := by
  constructor
  · intro p h
    cases p with
    | root => decide
    | scan a b =>
      simp only [VPath.wf, Bool.and_eq_true] at h
      obtain ⟨ha, hb⟩ := h
      simp only [VPath.path, clsCount, is_group, is_dataset, is_link_to_group,
        is_link_to_dataset, _bulk_match, List.any_cons, List.any_nil,
        root_pattern, scan_pattern, instrument_pattern, positioners_group_pattern,
        measurement_group_pattern, measurement_mca_group_pattern, instrument_mca_group_pattern,
        measurement_mca_info_pattern, measurement_mca_info_capture,
        title_pattern, start_time_pattern,
        positioners_data_pattern, positioners_data_capture,
        measurement_data_pattern, measurement_data_capture,
        instrument_mca_data_pattern, instrument_mca_data_capture,
        instrument_mca_calib_pattern, instrument_mca_chann_pattern,
        instrument_mca_preset_t_pattern, instrument_mca_elapsed_t_pattern,
        instrument_mca_live_t_pattern,
        measurement_mca_data_pattern, measurement_mca_data_capture,
        measurement_mca_info_dataset_pattern, measurement_mca_info_dataset_capture,
        mcaPat, oTest, lit, lits,
        sInstrument, sPositioners, sPositionersSlash, sMeasurement, sMeasurementSlash,
        sMeasMca, sInstrMca, sInfo, sInfoSlash, sTitle, sStartTime, sData, sCalibration,
        sChannels, sPresetTime, sElapsedTime, sLiveTime,
        List.cons_append, List.nil_append, List.append_assoc,
        Option.some_bind', Option.none_bind', Option.isSome_some, Option.isSome_none,
        if_true, if_false,
        Bool.false_or, Bool.true_or, Bool.or_false, Bool.or_true,
        scanP_eq, scanP_eq_nil,
        takeWhile_digits_ds, dropWhile_digits_ds, takeWhile_all_ds, dropDigits_all_ds,
        isEmpty_of_isDigitStr,
        headNotDigit_nil, headNotDigit_slash, headNotDigit_dot,
        endM_nil, endM_cons, endM_append_cons,
        optSlashEnd_nil, optSlashEnd_cons_cons, optSlashEnd_slash_goodName,
        tailName_of_goodName, tailName_mca_digits, tailName_mca_append_slash,
        ha, hb]
      try simp
    | title a b =>
      simp only [VPath.wf, Bool.and_eq_true] at h
      obtain ⟨ha, hb⟩ := h
      simp only [VPath.path, clsCount, is_group, is_dataset, is_link_to_group,
        is_link_to_dataset, _bulk_match, List.any_cons, List.any_nil,
        root_pattern, scan_pattern, instrument_pattern, positioners_group_pattern,
        measurement_group_pattern, measurement_mca_group_pattern, instrument_mca_group_pattern,
        measurement_mca_info_pattern, measurement_mca_info_capture,
        title_pattern, start_time_pattern,
        positioners_data_pattern, positioners_data_capture,
        measurement_data_pattern, measurement_data_capture,
        instrument_mca_data_pattern, instrument_mca_data_capture,
        instrument_mca_calib_pattern, instrument_mca_chann_pattern,
        instrument_mca_preset_t_pattern, instrument_mca_elapsed_t_pattern,
        instrument_mca_live_t_pattern,
        measurement_mca_data_pattern, measurement_mca_data_capture,
        measurement_mca_info_dataset_pattern, measurement_mca_info_dataset_capture,
        mcaPat, oTest, lit, lits,
        sInstrument, sPositioners, sPositionersSlash, sMeasurement, sMeasurementSlash,
        sMeasMca, sInstrMca, sInfo, sInfoSlash, sTitle, sStartTime, sData, sCalibration,
        sChannels, sPresetTime, sElapsedTime, sLiveTime,
        List.cons_append, List.nil_append, List.append_assoc,
        Option.some_bind', Option.none_bind', Option.isSome_some, Option.isSome_none,
        if_true, if_false,
        Bool.false_or, Bool.true_or, Bool.or_false, Bool.or_true,
        scanP_eq, scanP_eq_nil,
        takeWhile_digits_ds, dropWhile_digits_ds, takeWhile_all_ds, dropDigits_all_ds,
        isEmpty_of_isDigitStr,
        headNotDigit_nil, headNotDigit_slash, headNotDigit_dot,
        endM_nil, endM_cons, endM_append_cons,
        optSlashEnd_nil, optSlashEnd_cons_cons, optSlashEnd_slash_goodName,
        tailName_of_goodName, tailName_mca_digits, tailName_mca_append_slash,
        ha, hb]
      try simp
    | startTime a b =>
      simp only [VPath.wf, Bool.and_eq_true] at h
      obtain ⟨ha, hb⟩ := h
      simp only [VPath.path, clsCount, is_group, is_dataset, is_link_to_group,
        is_link_to_dataset, _bulk_match, List.any_cons, List.any_nil,
        root_pattern, scan_pattern, instrument_pattern, positioners_group_pattern,
        measurement_group_pattern, measurement_mca_group_pattern, instrument_mca_group_pattern,
        measurement_mca_info_pattern, measurement_mca_info_capture,
        title_pattern, start_time_pattern,
        positioners_data_pattern, positioners_data_capture,
        measurement_data_pattern, measurement_data_capture,
        instrument_mca_data_pattern, instrument_mca_data_capture,
        instrument_mca_calib_pattern, instrument_mca_chann_pattern,
        instrument_mca_preset_t_pattern, instrument_mca_elapsed_t_pattern,
        instrument_mca_live_t_pattern,
        measurement_mca_data_pattern, measurement_mca_data_capture,
        measurement_mca_info_dataset_pattern, measurement_mca_info_dataset_capture,
        mcaPat, oTest, lit, lits,
        sInstrument, sPositioners, sPositionersSlash, sMeasurement, sMeasurementSlash,
        sMeasMca, sInstrMca, sInfo, sInfoSlash, sTitle, sStartTime, sData, sCalibration,
        sChannels, sPresetTime, sElapsedTime, sLiveTime,
        List.cons_append, List.nil_append, List.append_assoc,
        Option.some_bind', Option.none_bind', Option.isSome_some, Option.isSome_none,
        if_true, if_false,
        Bool.false_or, Bool.true_or, Bool.or_false, Bool.or_true,
        scanP_eq, scanP_eq_nil,
        takeWhile_digits_ds, dropWhile_digits_ds, takeWhile_all_ds, dropDigits_all_ds,
        isEmpty_of_isDigitStr,
        headNotDigit_nil, headNotDigit_slash, headNotDigit_dot,
        endM_nil, endM_cons, endM_append_cons,
        optSlashEnd_nil, optSlashEnd_cons_cons, optSlashEnd_slash_goodName,
        tailName_of_goodName, tailName_mca_digits, tailName_mca_append_slash,
        ha, hb]
      try simp
    | instrument a b =>
      simp only [VPath.wf, Bool.and_eq_true] at h
      obtain ⟨ha, hb⟩ := h
      simp only [VPath.path, clsCount, is_group, is_dataset, is_link_to_group,
        is_link_to_dataset, _bulk_match, List.any_cons, List.any_nil,
        root_pattern, scan_pattern, instrument_pattern, positioners_group_pattern,
        measurement_group_pattern, measurement_mca_group_pattern, instrument_mca_group_pattern,
        measurement_mca_info_pattern, measurement_mca_info_capture,
        title_pattern, start_time_pattern,
        positioners_data_pattern, positioners_data_capture,
        measurement_data_pattern, measurement_data_capture,
        instrument_mca_data_pattern, instrument_mca_data_capture,
        instrument_mca_calib_pattern, instrument_mca_chann_pattern,
        instrument_mca_preset_t_pattern, instrument_mca_elapsed_t_pattern,
        instrument_mca_live_t_pattern,
        measurement_mca_data_pattern, measurement_mca_data_capture,
        measurement_mca_info_dataset_pattern, measurement_mca_info_dataset_capture,
        mcaPat, oTest, lit, lits,
        sInstrument, sPositioners, sPositionersSlash, sMeasurement, sMeasurementSlash,
        sMeasMca, sInstrMca, sInfo, sInfoSlash, sTitle, sStartTime, sData, sCalibration,
        sChannels, sPresetTime, sElapsedTime, sLiveTime,
        List.cons_append, List.nil_append, List.append_assoc,
        Option.some_bind', Option.none_bind', Option.isSome_some, Option.isSome_none,
        if_true, if_false,
        Bool.false_or, Bool.true_or, Bool.or_false, Bool.or_true,
        scanP_eq, scanP_eq_nil,
        takeWhile_digits_ds, dropWhile_digits_ds, takeWhile_all_ds, dropDigits_all_ds,
        isEmpty_of_isDigitStr,
        headNotDigit_nil, headNotDigit_slash, headNotDigit_dot,
        endM_nil, endM_cons, endM_append_cons,
        optSlashEnd_nil, optSlashEnd_cons_cons, optSlashEnd_slash_goodName,
        tailName_of_goodName, tailName_mca_digits, tailName_mca_append_slash,
        ha, hb]
      try simp
    | measurement a b =>
      simp only [VPath.wf, Bool.and_eq_true] at h
      obtain ⟨ha, hb⟩ := h
      simp only [VPath.path, clsCount, is_group, is_dataset, is_link_to_group,
        is_link_to_dataset, _bulk_match, List.any_cons, List.any_nil,
        root_pattern, scan_pattern, instrument_pattern, positioners_group_pattern,
        measurement_group_pattern, measurement_mca_group_pattern, instrument_mca_group_pattern,
        measurement_mca_info_pattern, measurement_mca_info_capture,
        title_pattern, start_time_pattern,
        positioners_data_pattern, positioners_data_capture,
        measurement_data_pattern, measurement_data_capture,
        instrument_mca_data_pattern, instrument_mca_data_capture,
        instrument_mca_calib_pattern, instrument_mca_chann_pattern,
        instrument_mca_preset_t_pattern, instrument_mca_elapsed_t_pattern,
        instrument_mca_live_t_pattern,
        measurement_mca_data_pattern, measurement_mca_data_capture,
        measurement_mca_info_dataset_pattern, measurement_mca_info_dataset_capture,
        mcaPat, oTest, lit, lits,
        sInstrument, sPositioners, sPositionersSlash, sMeasurement, sMeasurementSlash,
        sMeasMca, sInstrMca, sInfo, sInfoSlash, sTitle, sStartTime, sData, sCalibration,
        sChannels, sPresetTime, sElapsedTime, sLiveTime,
        List.cons_append, List.nil_append, List.append_assoc,
        Option.some_bind', Option.none_bind', Option.isSome_some, Option.isSome_none,
        if_true, if_false,
        Bool.false_or, Bool.true_or, Bool.or_false, Bool.or_true,
        scanP_eq, scanP_eq_nil,
        takeWhile_digits_ds, dropWhile_digits_ds, takeWhile_all_ds, dropDigits_all_ds,
        isEmpty_of_isDigitStr,
        headNotDigit_nil, headNotDigit_slash, headNotDigit_dot,
        endM_nil, endM_cons, endM_append_cons,
        optSlashEnd_nil, optSlashEnd_cons_cons, optSlashEnd_slash_goodName,
        tailName_of_goodName, tailName_mca_digits, tailName_mca_append_slash,
        ha, hb]
      try simp
    | positioners a b =>
      simp only [VPath.wf, Bool.and_eq_true] at h
      obtain ⟨ha, hb⟩ := h
      simp only [VPath.path, clsCount, is_group, is_dataset, is_link_to_group,
        is_link_to_dataset, _bulk_match, List.any_cons, List.any_nil,
        root_pattern, scan_pattern, instrument_pattern, positioners_group_pattern,
        measurement_group_pattern, measurement_mca_group_pattern, instrument_mca_group_pattern,
        measurement_mca_info_pattern, measurement_mca_info_capture,
        title_pattern, start_time_pattern,
        positioners_data_pattern, positioners_data_capture,
        measurement_data_pattern, measurement_data_capture,
        instrument_mca_data_pattern, instrument_mca_data_capture,
        instrument_mca_calib_pattern, instrument_mca_chann_pattern,
        instrument_mca_preset_t_pattern, instrument_mca_elapsed_t_pattern,
        instrument_mca_live_t_pattern,
        measurement_mca_data_pattern, measurement_mca_data_capture,
        measurement_mca_info_dataset_pattern, measurement_mca_info_dataset_capture,
        mcaPat, oTest, lit, lits,
        sInstrument, sPositioners, sPositionersSlash, sMeasurement, sMeasurementSlash,
        sMeasMca, sInstrMca, sInfo, sInfoSlash, sTitle, sStartTime, sData, sCalibration,
        sChannels, sPresetTime, sElapsedTime, sLiveTime,
        List.cons_append, List.nil_append, List.append_assoc,
        Option.some_bind', Option.none_bind', Option.isSome_some, Option.isSome_none,
        if_true, if_false,
        Bool.false_or, Bool.true_or, Bool.or_false, Bool.or_true,
        scanP_eq, scanP_eq_nil,
        takeWhile_digits_ds, dropWhile_digits_ds, takeWhile_all_ds, dropDigits_all_ds,
        isEmpty_of_isDigitStr,
        headNotDigit_nil, headNotDigit_slash, headNotDigit_dot,
        endM_nil, endM_cons, endM_append_cons,
        optSlashEnd_nil, optSlashEnd_cons_cons, optSlashEnd_slash_goodName,
        tailName_of_goodName, tailName_mca_digits, tailName_mca_append_slash,
        ha, hb]
      try simp
    | measMca a b i =>
      simp only [VPath.wf, Bool.and_eq_true] at h
      obtain ⟨⟨ha, hb⟩, hi⟩ := h
      simp only [VPath.path, clsCount, is_group, is_dataset, is_link_to_group,
        is_link_to_dataset, _bulk_match, List.any_cons, List.any_nil,
        root_pattern, scan_pattern, instrument_pattern, positioners_group_pattern,
        measurement_group_pattern, measurement_mca_group_pattern, instrument_mca_group_pattern,
        measurement_mca_info_pattern, measurement_mca_info_capture,
        title_pattern, start_time_pattern,
        positioners_data_pattern, positioners_data_capture,
        measurement_data_pattern, measurement_data_capture,
        instrument_mca_data_pattern, instrument_mca_data_capture,
        instrument_mca_calib_pattern, instrument_mca_chann_pattern,
        instrument_mca_preset_t_pattern, instrument_mca_elapsed_t_pattern,
        instrument_mca_live_t_pattern,
        measurement_mca_data_pattern, measurement_mca_data_capture,
        measurement_mca_info_dataset_pattern, measurement_mca_info_dataset_capture,
        mcaPat, oTest, lit, lits,
        sInstrument, sPositioners, sPositionersSlash, sMeasurement, sMeasurementSlash,
        sMeasMca, sInstrMca, sInfo, sInfoSlash, sTitle, sStartTime, sData, sCalibration,
        sChannels, sPresetTime, sElapsedTime, sLiveTime,
        List.cons_append, List.nil_append, List.append_assoc,
        Option.some_bind', Option.none_bind', Option.isSome_some, Option.isSome_none,
        if_true, if_false,
        Bool.false_or, Bool.true_or, Bool.or_false, Bool.or_true,
        scanP_eq, scanP_eq_nil,
        takeWhile_digits_ds, dropWhile_digits_ds, takeWhile_all_ds, dropDigits_all_ds,
        isEmpty_of_isDigitStr,
        headNotDigit_nil, headNotDigit_slash, headNotDigit_dot,
        endM_nil, endM_cons, endM_append_cons,
        optSlashEnd_nil, optSlashEnd_cons_cons, optSlashEnd_slash_goodName,
        tailName_of_goodName, tailName_mca_digits, tailName_mca_append_slash,
        ha, hb, hi]
      try simp
    | measMcaData a b i =>
      simp only [VPath.wf, Bool.and_eq_true] at h
      obtain ⟨⟨ha, hb⟩, hi⟩ := h
      simp only [VPath.path, clsCount, is_group, is_dataset, is_link_to_group,
        is_link_to_dataset, _bulk_match, List.any_cons, List.any_nil,
        root_pattern, scan_pattern, instrument_pattern, positioners_group_pattern,
        measurement_group_pattern, measurement_mca_group_pattern, instrument_mca_group_pattern,
        measurement_mca_info_pattern, measurement_mca_info_capture,
        title_pattern, start_time_pattern,
        positioners_data_pattern, positioners_data_capture,
        measurement_data_pattern, measurement_data_capture,
        instrument_mca_data_pattern, instrument_mca_data_capture,
        instrument_mca_calib_pattern, instrument_mca_chann_pattern,
        instrument_mca_preset_t_pattern, instrument_mca_elapsed_t_pattern,
        instrument_mca_live_t_pattern,
        measurement_mca_data_pattern, measurement_mca_data_capture,
        measurement_mca_info_dataset_pattern, measurement_mca_info_dataset_capture,
        mcaPat, oTest, lit, lits,
        sInstrument, sPositioners, sPositionersSlash, sMeasurement, sMeasurementSlash,
        sMeasMca, sInstrMca, sInfo, sInfoSlash, sTitle, sStartTime, sData, sCalibration,
        sChannels, sPresetTime, sElapsedTime, sLiveTime,
        List.cons_append, List.nil_append, List.append_assoc,
        Option.some_bind', Option.none_bind', Option.isSome_some, Option.isSome_none,
        if_true, if_false,
        Bool.false_or, Bool.true_or, Bool.or_false, Bool.or_true,
        scanP_eq, scanP_eq_nil,
        takeWhile_digits_ds, dropWhile_digits_ds, takeWhile_all_ds, dropDigits_all_ds,
        isEmpty_of_isDigitStr,
        headNotDigit_nil, headNotDigit_slash, headNotDigit_dot,
        endM_nil, endM_cons, endM_append_cons,
        optSlashEnd_nil, optSlashEnd_cons_cons, optSlashEnd_slash_goodName,
        tailName_of_goodName, tailName_mca_digits, tailName_mca_append_slash,
        ha, hb, hi]
      try simp
    | measMcaInfo a b i =>
      simp only [VPath.wf, Bool.and_eq_true] at h
      obtain ⟨⟨ha, hb⟩, hi⟩ := h
      simp only [VPath.path, clsCount, is_group, is_dataset, is_link_to_group,
        is_link_to_dataset, _bulk_match, List.any_cons, List.any_nil,
        root_pattern, scan_pattern, instrument_pattern, positioners_group_pattern,
        measurement_group_pattern, measurement_mca_group_pattern, instrument_mca_group_pattern,
        measurement_mca_info_pattern, measurement_mca_info_capture,
        title_pattern, start_time_pattern,
        positioners_data_pattern, positioners_data_capture,
        measurement_data_pattern, measurement_data_capture,
        instrument_mca_data_pattern, instrument_mca_data_capture,
        instrument_mca_calib_pattern, instrument_mca_chann_pattern,
        instrument_mca_preset_t_pattern, instrument_mca_elapsed_t_pattern,
        instrument_mca_live_t_pattern,
        measurement_mca_data_pattern, measurement_mca_data_capture,
        measurement_mca_info_dataset_pattern, measurement_mca_info_dataset_capture,
        mcaPat, oTest, lit, lits,
        sInstrument, sPositioners, sPositionersSlash, sMeasurement, sMeasurementSlash,
        sMeasMca, sInstrMca, sInfo, sInfoSlash, sTitle, sStartTime, sData, sCalibration,
        sChannels, sPresetTime, sElapsedTime, sLiveTime,
        List.cons_append, List.nil_append, List.append_assoc,
        Option.some_bind', Option.none_bind', Option.isSome_some, Option.isSome_none,
        if_true, if_false,
        Bool.false_or, Bool.true_or, Bool.or_false, Bool.or_true,
        scanP_eq, scanP_eq_nil,
        takeWhile_digits_ds, dropWhile_digits_ds, takeWhile_all_ds, dropDigits_all_ds,
        isEmpty_of_isDigitStr,
        headNotDigit_nil, headNotDigit_slash, headNotDigit_dot,
        endM_nil, endM_cons, endM_append_cons,
        optSlashEnd_nil, optSlashEnd_cons_cons, optSlashEnd_slash_goodName,
        tailName_of_goodName, tailName_mca_digits, tailName_mca_append_slash,
        ha, hb, hi]
      try simp
    | instMca a b i =>
      simp only [VPath.wf, Bool.and_eq_true] at h
      obtain ⟨⟨ha, hb⟩, hi⟩ := h
      simp only [VPath.path, clsCount, is_group, is_dataset, is_link_to_group,
        is_link_to_dataset, _bulk_match, List.any_cons, List.any_nil,
        root_pattern, scan_pattern, instrument_pattern, positioners_group_pattern,
        measurement_group_pattern, measurement_mca_group_pattern, instrument_mca_group_pattern,
        measurement_mca_info_pattern, measurement_mca_info_capture,
        title_pattern, start_time_pattern,
        positioners_data_pattern, positioners_data_capture,
        measurement_data_pattern, measurement_data_capture,
        instrument_mca_data_pattern, instrument_mca_data_capture,
        instrument_mca_calib_pattern, instrument_mca_chann_pattern,
        instrument_mca_preset_t_pattern, instrument_mca_elapsed_t_pattern,
        instrument_mca_live_t_pattern,
        measurement_mca_data_pattern, measurement_mca_data_capture,
        measurement_mca_info_dataset_pattern, measurement_mca_info_dataset_capture,
        mcaPat, oTest, lit, lits,
        sInstrument, sPositioners, sPositionersSlash, sMeasurement, sMeasurementSlash,
        sMeasMca, sInstrMca, sInfo, sInfoSlash, sTitle, sStartTime, sData, sCalibration,
        sChannels, sPresetTime, sElapsedTime, sLiveTime,
        List.cons_append, List.nil_append, List.append_assoc,
        Option.some_bind', Option.none_bind', Option.isSome_some, Option.isSome_none,
        if_true, if_false,
        Bool.false_or, Bool.true_or, Bool.or_false, Bool.or_true,
        scanP_eq, scanP_eq_nil,
        takeWhile_digits_ds, dropWhile_digits_ds, takeWhile_all_ds, dropDigits_all_ds,
        isEmpty_of_isDigitStr,
        headNotDigit_nil, headNotDigit_slash, headNotDigit_dot,
        endM_nil, endM_cons, endM_append_cons,
        optSlashEnd_nil, optSlashEnd_cons_cons, optSlashEnd_slash_goodName,
        tailName_of_goodName, tailName_mca_digits, tailName_mca_append_slash,
        ha, hb, hi]
      try simp
    | instMcaData a b i =>
      simp only [VPath.wf, Bool.and_eq_true] at h
      obtain ⟨⟨ha, hb⟩, hi⟩ := h
      simp only [VPath.path, clsCount, is_group, is_dataset, is_link_to_group,
        is_link_to_dataset, _bulk_match, List.any_cons, List.any_nil,
        root_pattern, scan_pattern, instrument_pattern, positioners_group_pattern,
        measurement_group_pattern, measurement_mca_group_pattern, instrument_mca_group_pattern,
        measurement_mca_info_pattern, measurement_mca_info_capture,
        title_pattern, start_time_pattern,
        positioners_data_pattern, positioners_data_capture,
        measurement_data_pattern, measurement_data_capture,
        instrument_mca_data_pattern, instrument_mca_data_capture,
        instrument_mca_calib_pattern, instrument_mca_chann_pattern,
        instrument_mca_preset_t_pattern, instrument_mca_elapsed_t_pattern,
        instrument_mca_live_t_pattern,
        measurement_mca_data_pattern, measurement_mca_data_capture,
        measurement_mca_info_dataset_pattern, measurement_mca_info_dataset_capture,
        mcaPat, oTest, lit, lits,
        sInstrument, sPositioners, sPositionersSlash, sMeasurement, sMeasurementSlash,
        sMeasMca, sInstrMca, sInfo, sInfoSlash, sTitle, sStartTime, sData, sCalibration,
        sChannels, sPresetTime, sElapsedTime, sLiveTime,
        List.cons_append, List.nil_append, List.append_assoc,
        Option.some_bind', Option.none_bind', Option.isSome_some, Option.isSome_none,
        if_true, if_false,
        Bool.false_or, Bool.true_or, Bool.or_false, Bool.or_true,
        scanP_eq, scanP_eq_nil,
        takeWhile_digits_ds, dropWhile_digits_ds, takeWhile_all_ds, dropDigits_all_ds,
        isEmpty_of_isDigitStr,
        headNotDigit_nil, headNotDigit_slash, headNotDigit_dot,
        endM_nil, endM_cons, endM_append_cons,
        optSlashEnd_nil, optSlashEnd_cons_cons, optSlashEnd_slash_goodName,
        tailName_of_goodName, tailName_mca_digits, tailName_mca_append_slash,
        ha, hb, hi]
      try simp
    | instMcaCalib a b i =>
      simp only [VPath.wf, Bool.and_eq_true] at h
      obtain ⟨⟨ha, hb⟩, hi⟩ := h
      simp only [VPath.path, clsCount, is_group, is_dataset, is_link_to_group,
        is_link_to_dataset, _bulk_match, List.any_cons, List.any_nil,
        root_pattern, scan_pattern, instrument_pattern, positioners_group_pattern,
        measurement_group_pattern, measurement_mca_group_pattern, instrument_mca_group_pattern,
        measurement_mca_info_pattern, measurement_mca_info_capture,
        title_pattern, start_time_pattern,
        positioners_data_pattern, positioners_data_capture,
        measurement_data_pattern, measurement_data_capture,
        instrument_mca_data_pattern, instrument_mca_data_capture,
        instrument_mca_calib_pattern, instrument_mca_chann_pattern,
        instrument_mca_preset_t_pattern, instrument_mca_elapsed_t_pattern,
        instrument_mca_live_t_pattern,
        measurement_mca_data_pattern, measurement_mca_data_capture,
        measurement_mca_info_dataset_pattern, measurement_mca_info_dataset_capture,
        mcaPat, oTest, lit, lits,
        sInstrument, sPositioners, sPositionersSlash, sMeasurement, sMeasurementSlash,
        sMeasMca, sInstrMca, sInfo, sInfoSlash, sTitle, sStartTime, sData, sCalibration,
        sChannels, sPresetTime, sElapsedTime, sLiveTime,
        List.cons_append, List.nil_append, List.append_assoc,
        Option.some_bind', Option.none_bind', Option.isSome_some, Option.isSome_none,
        if_true, if_false,
        Bool.false_or, Bool.true_or, Bool.or_false, Bool.or_true,
        scanP_eq, scanP_eq_nil,
        takeWhile_digits_ds, dropWhile_digits_ds, takeWhile_all_ds, dropDigits_all_ds,
        isEmpty_of_isDigitStr,
        headNotDigit_nil, headNotDigit_slash, headNotDigit_dot,
        endM_nil, endM_cons, endM_append_cons,
        optSlashEnd_nil, optSlashEnd_cons_cons, optSlashEnd_slash_goodName,
        tailName_of_goodName, tailName_mca_digits, tailName_mca_append_slash,
        ha, hb, hi]
      try simp
    | instMcaChann a b i =>
      simp only [VPath.wf, Bool.and_eq_true] at h
      obtain ⟨⟨ha, hb⟩, hi⟩ := h
      simp only [VPath.path, clsCount, is_group, is_dataset, is_link_to_group,
        is_link_to_dataset, _bulk_match, List.any_cons, List.any_nil,
        root_pattern, scan_pattern, instrument_pattern, positioners_group_pattern,
        measurement_group_pattern, measurement_mca_group_pattern, instrument_mca_group_pattern,
        measurement_mca_info_pattern, measurement_mca_info_capture,
        title_pattern, start_time_pattern,
        positioners_data_pattern, positioners_data_capture,
        measurement_data_pattern, measurement_data_capture,
        instrument_mca_data_pattern, instrument_mca_data_capture,
        instrument_mca_calib_pattern, instrument_mca_chann_pattern,
        instrument_mca_preset_t_pattern, instrument_mca_elapsed_t_pattern,
        instrument_mca_live_t_pattern,
        measurement_mca_data_pattern, measurement_mca_data_capture,
        measurement_mca_info_dataset_pattern, measurement_mca_info_dataset_capture,
        mcaPat, oTest, lit, lits,
        sInstrument, sPositioners, sPositionersSlash, sMeasurement, sMeasurementSlash,
        sMeasMca, sInstrMca, sInfo, sInfoSlash, sTitle, sStartTime, sData, sCalibration,
        sChannels, sPresetTime, sElapsedTime, sLiveTime,
        List.cons_append, List.nil_append, List.append_assoc,
        Option.some_bind', Option.none_bind', Option.isSome_some, Option.isSome_none,
        if_true, if_false,
        Bool.false_or, Bool.true_or, Bool.or_false, Bool.or_true,
        scanP_eq, scanP_eq_nil,
        takeWhile_digits_ds, dropWhile_digits_ds, takeWhile_all_ds, dropDigits_all_ds,
        isEmpty_of_isDigitStr,
        headNotDigit_nil, headNotDigit_slash, headNotDigit_dot,
        endM_nil, endM_cons, endM_append_cons,
        optSlashEnd_nil, optSlashEnd_cons_cons, optSlashEnd_slash_goodName,
        tailName_of_goodName, tailName_mca_digits, tailName_mca_append_slash,
        ha, hb, hi]
      try simp
    | instMcaPreset a b i =>
      simp only [VPath.wf, Bool.and_eq_true] at h
      obtain ⟨⟨ha, hb⟩, hi⟩ := h
      simp only [VPath.path, clsCount, is_group, is_dataset, is_link_to_group,
        is_link_to_dataset, _bulk_match, List.any_cons, List.any_nil,
        root_pattern, scan_pattern, instrument_pattern, positioners_group_pattern,
        measurement_group_pattern, measurement_mca_group_pattern, instrument_mca_group_pattern,
        measurement_mca_info_pattern, measurement_mca_info_capture,
        title_pattern, start_time_pattern,
        positioners_data_pattern, positioners_data_capture,
        measurement_data_pattern, measurement_data_capture,
        instrument_mca_data_pattern, instrument_mca_data_capture,
        instrument_mca_calib_pattern, instrument_mca_chann_pattern,
        instrument_mca_preset_t_pattern, instrument_mca_elapsed_t_pattern,
        instrument_mca_live_t_pattern,
        measurement_mca_data_pattern, measurement_mca_data_capture,
        measurement_mca_info_dataset_pattern, measurement_mca_info_dataset_capture,
        mcaPat, oTest, lit, lits,
        sInstrument, sPositioners, sPositionersSlash, sMeasurement, sMeasurementSlash,
        sMeasMca, sInstrMca, sInfo, sInfoSlash, sTitle, sStartTime, sData, sCalibration,
        sChannels, sPresetTime, sElapsedTime, sLiveTime,
        List.cons_append, List.nil_append, List.append_assoc,
        Option.some_bind', Option.none_bind', Option.isSome_some, Option.isSome_none,
        if_true, if_false,
        Bool.false_or, Bool.true_or, Bool.or_false, Bool.or_true,
        scanP_eq, scanP_eq_nil,
        takeWhile_digits_ds, dropWhile_digits_ds, takeWhile_all_ds, dropDigits_all_ds,
        isEmpty_of_isDigitStr,
        headNotDigit_nil, headNotDigit_slash, headNotDigit_dot,
        endM_nil, endM_cons, endM_append_cons,
        optSlashEnd_nil, optSlashEnd_cons_cons, optSlashEnd_slash_goodName,
        tailName_of_goodName, tailName_mca_digits, tailName_mca_append_slash,
        ha, hb, hi]
      try simp
    | instMcaElapsed a b i =>
      simp only [VPath.wf, Bool.and_eq_true] at h
      obtain ⟨⟨ha, hb⟩, hi⟩ := h
      simp only [VPath.path, clsCount, is_group, is_dataset, is_link_to_group,
        is_link_to_dataset, _bulk_match, List.any_cons, List.any_nil,
        root_pattern, scan_pattern, instrument_pattern, positioners_group_pattern,
        measurement_group_pattern, measurement_mca_group_pattern, instrument_mca_group_pattern,
        measurement_mca_info_pattern, measurement_mca_info_capture,
        title_pattern, start_time_pattern,
        positioners_data_pattern, positioners_data_capture,
        measurement_data_pattern, measurement_data_capture,
        instrument_mca_data_pattern, instrument_mca_data_capture,
        instrument_mca_calib_pattern, instrument_mca_chann_pattern,
        instrument_mca_preset_t_pattern, instrument_mca_elapsed_t_pattern,
        instrument_mca_live_t_pattern,
        measurement_mca_data_pattern, measurement_mca_data_capture,
        measurement_mca_info_dataset_pattern, measurement_mca_info_dataset_capture,
        mcaPat, oTest, lit, lits,
        sInstrument, sPositioners, sPositionersSlash, sMeasurement, sMeasurementSlash,
        sMeasMca, sInstrMca, sInfo, sInfoSlash, sTitle, sStartTime, sData, sCalibration,
        sChannels, sPresetTime, sElapsedTime, sLiveTime,
        List.cons_append, List.nil_append, List.append_assoc,
        Option.some_bind', Option.none_bind', Option.isSome_some, Option.isSome_none,
        if_true, if_false,
        Bool.false_or, Bool.true_or, Bool.or_false, Bool.or_true,
        scanP_eq, scanP_eq_nil,
        takeWhile_digits_ds, dropWhile_digits_ds, takeWhile_all_ds, dropDigits_all_ds,
        isEmpty_of_isDigitStr,
        headNotDigit_nil, headNotDigit_slash, headNotDigit_dot,
        endM_nil, endM_cons, endM_append_cons,
        optSlashEnd_nil, optSlashEnd_cons_cons, optSlashEnd_slash_goodName,
        tailName_of_goodName, tailName_mca_digits, tailName_mca_append_slash,
        ha, hb, hi]
      try simp
    | instMcaLive a b i =>
      simp only [VPath.wf, Bool.and_eq_true] at h
      obtain ⟨⟨ha, hb⟩, hi⟩ := h
      simp only [VPath.path, clsCount, is_group, is_dataset, is_link_to_group,
        is_link_to_dataset, _bulk_match, List.any_cons, List.any_nil,
        root_pattern, scan_pattern, instrument_pattern, positioners_group_pattern,
        measurement_group_pattern, measurement_mca_group_pattern, instrument_mca_group_pattern,
        measurement_mca_info_pattern, measurement_mca_info_capture,
        title_pattern, start_time_pattern,
        positioners_data_pattern, positioners_data_capture,
        measurement_data_pattern, measurement_data_capture,
        instrument_mca_data_pattern, instrument_mca_data_capture,
        instrument_mca_calib_pattern, instrument_mca_chann_pattern,
        instrument_mca_preset_t_pattern, instrument_mca_elapsed_t_pattern,
        instrument_mca_live_t_pattern,
        measurement_mca_data_pattern, measurement_mca_data_capture,
        measurement_mca_info_dataset_pattern, measurement_mca_info_dataset_capture,
        mcaPat, oTest, lit, lits,
        sInstrument, sPositioners, sPositionersSlash, sMeasurement, sMeasurementSlash,
        sMeasMca, sInstrMca, sInfo, sInfoSlash, sTitle, sStartTime, sData, sCalibration,
        sChannels, sPresetTime, sElapsedTime, sLiveTime,
        List.cons_append, List.nil_append, List.append_assoc,
        Option.some_bind', Option.none_bind', Option.isSome_some, Option.isSome_none,
        if_true, if_false,
        Bool.false_or, Bool.true_or, Bool.or_false, Bool.or_true,
        scanP_eq, scanP_eq_nil,
        takeWhile_digits_ds, dropWhile_digits_ds, takeWhile_all_ds, dropDigits_all_ds,
        isEmpty_of_isDigitStr,
        headNotDigit_nil, headNotDigit_slash, headNotDigit_dot,
        endM_nil, endM_cons, endM_append_cons,
        optSlashEnd_nil, optSlashEnd_cons_cons, optSlashEnd_slash_goodName,
        tailName_of_goodName, tailName_mca_digits, tailName_mca_append_slash,
        ha, hb, hi]
      try simp
    | positioner a b m =>
      simp only [VPath.wf, Bool.and_eq_true] at h
      obtain ⟨⟨ha, hb⟩, hm⟩ := h
      simp only [VPath.path, clsCount, is_group, is_dataset, is_link_to_group,
        is_link_to_dataset, _bulk_match, List.any_cons, List.any_nil,
        root_pattern, scan_pattern, instrument_pattern, positioners_group_pattern,
        measurement_group_pattern, measurement_mca_group_pattern, instrument_mca_group_pattern,
        measurement_mca_info_pattern, measurement_mca_info_capture,
        title_pattern, start_time_pattern,
        positioners_data_pattern, positioners_data_capture,
        measurement_data_pattern, measurement_data_capture,
        instrument_mca_data_pattern, instrument_mca_data_capture,
        instrument_mca_calib_pattern, instrument_mca_chann_pattern,
        instrument_mca_preset_t_pattern, instrument_mca_elapsed_t_pattern,
        instrument_mca_live_t_pattern,
        measurement_mca_data_pattern, measurement_mca_data_capture,
        measurement_mca_info_dataset_pattern, measurement_mca_info_dataset_capture,
        mcaPat, oTest, lit, lits,
        sInstrument, sPositioners, sPositionersSlash, sMeasurement, sMeasurementSlash,
        sMeasMca, sInstrMca, sInfo, sInfoSlash, sTitle, sStartTime, sData, sCalibration,
        sChannels, sPresetTime, sElapsedTime, sLiveTime,
        List.cons_append, List.nil_append, List.append_assoc,
        Option.some_bind', Option.none_bind', Option.isSome_some, Option.isSome_none,
        if_true, if_false,
        Bool.false_or, Bool.true_or, Bool.or_false, Bool.or_true,
        scanP_eq, scanP_eq_nil,
        takeWhile_digits_ds, dropWhile_digits_ds, takeWhile_all_ds, dropDigits_all_ds,
        isEmpty_of_isDigitStr,
        headNotDigit_nil, headNotDigit_slash, headNotDigit_dot,
        endM_nil, endM_cons, endM_append_cons,
        optSlashEnd_nil, optSlashEnd_cons_cons, optSlashEnd_slash_goodName,
        tailName_of_goodName, tailName_mca_digits, tailName_mca_append_slash,
        ha, hb, hm]
      try simp
    | measMcaInfoSub a b i x =>
      simp only [VPath.wf, Bool.and_eq_true] at h
      obtain ⟨⟨⟨ha, hb⟩, hi⟩, hx⟩ := h
      simp only [VPath.path, clsCount, is_group, is_dataset, is_link_to_group,
        is_link_to_dataset, _bulk_match, List.any_cons, List.any_nil,
        root_pattern, scan_pattern, instrument_pattern, positioners_group_pattern,
        measurement_group_pattern, measurement_mca_group_pattern, instrument_mca_group_pattern,
        measurement_mca_info_pattern, measurement_mca_info_capture,
        title_pattern, start_time_pattern,
        positioners_data_pattern, positioners_data_capture,
        measurement_data_pattern, measurement_data_capture,
        instrument_mca_data_pattern, instrument_mca_data_capture,
        instrument_mca_calib_pattern, instrument_mca_chann_pattern,
        instrument_mca_preset_t_pattern, instrument_mca_elapsed_t_pattern,
        instrument_mca_live_t_pattern,
        measurement_mca_data_pattern, measurement_mca_data_capture,
        measurement_mca_info_dataset_pattern, measurement_mca_info_dataset_capture,
        mcaPat, oTest, lit, lits,
        sInstrument, sPositioners, sPositionersSlash, sMeasurement, sMeasurementSlash,
        sMeasMca, sInstrMca, sInfo, sInfoSlash, sTitle, sStartTime, sData, sCalibration,
        sChannels, sPresetTime, sElapsedTime, sLiveTime,
        List.cons_append, List.nil_append, List.append_assoc,
        Option.some_bind', Option.none_bind', Option.isSome_some, Option.isSome_none,
        if_true, if_false,
        Bool.false_or, Bool.true_or, Bool.or_false, Bool.or_true,
        scanP_eq, scanP_eq_nil,
        takeWhile_digits_ds, dropWhile_digits_ds, takeWhile_all_ds, dropDigits_all_ds,
        isEmpty_of_isDigitStr,
        headNotDigit_nil, headNotDigit_slash, headNotDigit_dot,
        endM_nil, endM_cons, endM_append_cons,
        optSlashEnd_nil, optSlashEnd_cons_cons, optSlashEnd_slash_goodName,
        tailName_of_goodName, tailName_mca_digits, tailName_mca_append_slash,
        ha, hb, hi, hx]
      try simp
    | column a b lb =>
      simp only [VPath.wf, Bool.and_eq_true] at h
      obtain ⟨⟨ha, hb⟩, hm⟩ := h
      have hmp := hm
      simp only [goodName, decide_eq_true_eq] at hmp
      have hnos : ∀ c ∈ lb, ¬ c = '/' := fun c hc => hmp.2 c hc
      have hscan : scanP ('/' :: (a ++ '.' :: (b ++ (sMeasurementSlash ++ lb))))
          = some (sMeasurementSlash ++ lb) :=
        scanP_eq a b _ ha hb
          (by simp [sMeasurementSlash, sMeasurement, headNotDigit_slash])
      have e1 : sMeasurementSlash ++ lb = sMeasurement ++ '/' :: lb := by
        simp [sMeasurementSlash]
      have stage : lits sMeasMca (sMeasurementSlash ++ lb)
          = lits ['m', 'c', 'a', '_'] lb := by
        simp [sMeasMca, lits_append_split, lits_self_append]
      have n1 : lits sInstrument (sMeasurementSlash ++ lb) = none := by
        simp [sInstrument, sMeasurementSlash, sMeasurement, lits]
      have n2 : lits sPositioners (sMeasurementSlash ++ lb) = none := by
        simp [sPositioners, sInstrument, sMeasurementSlash, sMeasurement, lits]
      have n3 : lits sInstrMca (sMeasurementSlash ++ lb) = none := by
        simp [sInstrMca, sInstrument, sMeasurementSlash, sMeasurement, lits]
      have n4 : lits sPositionersSlash (sMeasurementSlash ++ lb) = none := by
        simp [sPositionersSlash, sPositioners, sInstrument, sMeasurementSlash,
          sMeasurement, lits]
      have n5 : lits sTitle (sMeasurementSlash ++ lb) = none := by
        simp [sTitle, sMeasurementSlash, sMeasurement, lits]
      have n6 : lits sStartTime (sMeasurementSlash ++ lb) = none := by
        simp [sStartTime, sMeasurementSlash, sMeasurement, lits]
      have hMeas : lits sMeasurement (sMeasurementSlash ++ lb) = some ('/' :: lb) := by
        rw [e1]; exact lits_self_append _ _
      have hMeasSlash : lits sMeasurementSlash (sMeasurementSlash ++ lb) = some lb :=
        lits_self_append _ _
      have hOS : optSlashEnd (sMeasurementSlash ++ lb) = false := by
        simp [sMeasurementSlash, sMeasurement, optSlashEnd]
      have hOS2 : optSlashEnd ('/' :: lb) = false := optSlashEnd_slash_goodName lb hm
      have hTN : tailName lb = true := tailName_of_goodName lb hm
      have hlit : lit '/' ('/' :: (a ++ '.' :: (b ++ (sMeasurementSlash ++ lb))))
          = some (a ++ '.' :: (b ++ (sMeasurementSlash ++ lb))) := by
        simp [lit]
      rcases h4 : lits ['m', 'c', 'a', '_'] lb with _ | r
      · simp only [VPath.path, clsCount, is_group, is_dataset, is_link_to_group,
          is_link_to_dataset, _bulk_match, List.any_cons, List.any_nil,
          root_pattern, scan_pattern, instrument_pattern, positioners_group_pattern,
          measurement_group_pattern, measurement_mca_group_pattern,
          instrument_mca_group_pattern, measurement_mca_info_pattern,
          measurement_mca_info_capture, title_pattern, start_time_pattern,
          positioners_data_pattern, positioners_data_capture,
          measurement_data_pattern, measurement_data_capture,
          instrument_mca_data_pattern, instrument_mca_data_capture,
          instrument_mca_calib_pattern, instrument_mca_chann_pattern,
          instrument_mca_preset_t_pattern, instrument_mca_elapsed_t_pattern,
          instrument_mca_live_t_pattern, measurement_mca_data_pattern,
          measurement_mca_data_capture, measurement_mca_info_dataset_pattern,
          measurement_mca_info_dataset_capture, mcaPat, oTest,
          hscan, stage, h4, n1, n2, n3, n4, n5, n6, hMeas, hMeasSlash, hOS, hOS2,
          hTN, hlit, endM_append_cons,
          Option.some_bind', Option.none_bind', Option.isSome_some, Option.isSome_none,
          if_true, if_false, Bool.false_or, Bool.true_or, Bool.or_false, Bool.or_true]
        try simp
      · have hlbeq : lb = 'm' :: 'c' :: 'a' :: '_' :: r := lits_sound _ _ _ h4
        have hr : ∀ c ∈ r, ¬ c = '/' := by
          intro c hc
          apply hnos c
          rw [hlbeq]
          simp [hc]
        have hr2 : ∀ c ∈ dropDigits r, ¬ c = '/' :=
          fun c hc => hr c ((List.dropWhile_sublist _).subset hc)
        have hnd : lits sData (dropDigits r) = none := lits_slash_none _ _ hr2
        have hni : lits sInfo (dropDigits r) = none := lits_slash_none _ _ hr2
        have hnis : lits sInfoSlash (dropDigits r) = none := lits_slash_none _ _ hr2
        have hlnil : ∀ l2 : Str, lits [] l2 = some l2 := fun l2 => rfl
        cases hQ : (r.takeWhile isDigitC).isEmpty <;>
          cases hS : optSlashEnd (dropDigits r) <;>
          · simp only [VPath.path, clsCount, is_group, is_dataset, is_link_to_group,
              is_link_to_dataset, _bulk_match, List.any_cons, List.any_nil,
              root_pattern, scan_pattern, instrument_pattern, positioners_group_pattern,
              measurement_group_pattern, measurement_mca_group_pattern,
              instrument_mca_group_pattern, measurement_mca_info_pattern,
              measurement_mca_info_capture, title_pattern, start_time_pattern,
              positioners_data_pattern, positioners_data_capture,
              measurement_data_pattern, measurement_data_capture,
              instrument_mca_data_pattern, instrument_mca_data_capture,
              instrument_mca_calib_pattern, instrument_mca_chann_pattern,
              instrument_mca_preset_t_pattern, instrument_mca_elapsed_t_pattern,
              instrument_mca_live_t_pattern, measurement_mca_data_pattern,
              measurement_mca_data_capture, measurement_mca_info_dataset_pattern,
              measurement_mca_info_dataset_capture, mcaPat, oTest,
              hscan, stage, h4, hQ, hS, hnd, hni, hnis, hlnil,
              n1, n2, n3, n4, n5, n6, hMeas, hMeasSlash, hOS, hOS2, hTN, hlit,
              endM_append_cons,
              Option.some_bind', Option.none_bind', Option.isSome_some,
              Option.isSome_none, if_true, if_false,
              Bool.false_or, Bool.true_or, Bool.or_false, Bool.or_true]
            try simp

  · intro a b i ha hb hi
    simp only [VPath.path, clsCount, is_group, is_dataset, is_link_to_group,
        is_link_to_dataset, _bulk_match, List.any_cons, List.any_nil,
        root_pattern, scan_pattern, instrument_pattern, positioners_group_pattern,
        measurement_group_pattern, measurement_mca_group_pattern, instrument_mca_group_pattern,
        measurement_mca_info_pattern, measurement_mca_info_capture,
        title_pattern, start_time_pattern,
        positioners_data_pattern, positioners_data_capture,
        measurement_data_pattern, measurement_data_capture,
        instrument_mca_data_pattern, instrument_mca_data_capture,
        instrument_mca_calib_pattern, instrument_mca_chann_pattern,
        instrument_mca_preset_t_pattern, instrument_mca_elapsed_t_pattern,
        instrument_mca_live_t_pattern,
        measurement_mca_data_pattern, measurement_mca_data_capture,
        measurement_mca_info_dataset_pattern, measurement_mca_info_dataset_capture,
        mcaPat, oTest, lit, lits,
        sInstrument, sPositioners, sPositionersSlash, sMeasurement, sMeasurementSlash,
        sMeasMca, sInstrMca, sInfo, sInfoSlash, sTitle, sStartTime, sData, sCalibration,
        sChannels, sPresetTime, sElapsedTime, sLiveTime,
        List.cons_append, List.nil_append, List.append_assoc,
        Option.some_bind', Option.none_bind', Option.isSome_some, Option.isSome_none,
        if_true, if_false,
        Bool.false_or, Bool.true_or, Bool.or_false, Bool.or_true,
        scanP_eq, scanP_eq_nil,
        takeWhile_digits_ds, dropWhile_digits_ds, takeWhile_all_ds, dropDigits_all_ds,
        isEmpty_of_isDigitStr,
        headNotDigit_nil, headNotDigit_slash, headNotDigit_dot,
        endM_nil, endM_cons, endM_append_cons,
        optSlashEnd_nil, optSlashEnd_cons_cons, optSlashEnd_slash_goodName,
        tailName_of_goodName, tailName_mca_digits, tailName_mca_append_slash,
      ha, hb, hi]
    try simp

/-- Witness for C1 at concrete inputs, including a column label that
itself looks like `mca_0` (the exception rule's ambiguous shape). -/
theorem grammar_partition_witness :
    (VPath.column "1".data "1".data "mca_0".data).wf = true
    ∧ clsCount (VPath.path (VPath.column "1".data "1".data "mca_0".data)) = 1
    ∧ is_group (VPath.path (VPath.measMca "1".data "1".data "0".data)) = true :=
  ⟨by decide, grammar_partition.1 _ (by decide),
    (grammar_partition.2 "1".data "1".data "0".data (by decide) (by decide)
      (by decide)).1⟩

example : clsCount "/1.1/measurement/mca_0".data = 1 := by decide
example : clsCount "/1.1/measurement/mca_0/info".data = 1 := by decide
example : clsCount "/1.1/instrument/positioners/mot 1".data = 1 := by decide

theorem range'_map_stride {α : Type} (f : Nat → α) (s : Nat) :
    ∀ (n i : Nat), (List.range' i n s).map f
      = (List.range n).map (fun k => f (i + k * s)) := by
  intro n
  induction n with
  | zero => intro i; simp
  | succ n ih =>
    intro i
    rw [List.range'_succ, List.range_succ_eq_map]
    simp only [List.map_cons, List.map_map]
    congr 1
    · simp
    · rw [ih (i + s)]
      apply List.map_congr_left
      intro k _
      simp only [Function.comp]
      congr 1
      rw [Nat.succ_mul]
      omega

/-- Claim C3: de-multiplex correctness.  For a scan whose number of MCA
spectra is `nA` times its number of data lines, materializing analyser
`i < nA` succeeds and returns exactly the spectra at flat indices
`i, i + nA, i + 2*nA, …`, one row per data line, in order. -/
theorem demultiplex_rows (scan : Scan) (nA i : Nat)
    (h1 : 0 < scan.data.length)
    (h2 : scan.mca.length = nA * scan.data.length)
    (h3 : i < nA) :
    _demultiplex_mca scan i
      = .ok ((List.range scan.data.length).map
          (fun k => scan.mca.getD (i + k * nA) [])) := by
  have hnA : 0 < nA := by omega
  have h0 : ¬ scan.data.length = 0 := by omega
  have hmod : scan.mca.length % scan.data.length = 0 := by
    rw [h2]
    exact Nat.mul_mod_left nA scan.data.length
  have hdiv : scan.mca.length / scan.data.length = nA := by
    rw [h2]
    exact Nat.mul_div_cancel nA h1
  have hM : nA ≤ scan.mca.length := by
    rw [h2]
    exact Nat.le_mul_of_pos_right nA h1
  have hcount : (scan.mca.length - i + (nA - 1)) / nA = scan.data.length := by
    apply Nat.div_eq_of_lt_le
    · rw [Nat.mul_comm, ← h2]
      omega
    · rw [Nat.succ_mul, Nat.mul_comm, ← h2]
      omega
  simp only [_demultiplex_mca, Scan.shape0]
  rw [if_neg h0, if_neg (by simp [hmod]), hdiv]
  rw [if_neg (show ¬ nA = 0 by omega)]
  simp only [pyRange, hcount]
  rw [range'_map_stride]

/-- Concrete scan used by the C3 witness: 6 interleaved spectra over 2 data
lines, hence 3 analysers. -/
def mcaScan6 : Scan :=
  { header_S := none
    header_D := none
    file_header_D := none
    labels := []
    data := [[SFV.fin 0], [SFV.fin 1]]
    motor_names := []
    motor_positions := []
    mca := [[SFV.fin 10], [SFV.fin 11], [SFV.fin 12], [SFV.fin 13],
            [SFV.fin 14], [SFV.fin 15]]
    mca_calibration := []
    mca_channels := []
    mca_header_CTIME := none }

/-- Witness for C3: with 6 spectra and 2 data lines, analyser 0 yields the
spectra at flat indices 0 and 3 as 2 rows, analyser 2 yields indices 2
and 5. -/
theorem demultiplex_rows_witness :
    0 < mcaScan6.data.length
    ∧ mcaScan6.mca.length = 3 * mcaScan6.data.length
    ∧ _demultiplex_mca mcaScan6 0
        = .ok ((List.range mcaScan6.data.length).map
            (fun k => mcaScan6.mca.getD (0 + k * 3) []))
    ∧ _demultiplex_mca mcaScan6 2
        = .ok ((List.range mcaScan6.data.length).map
            (fun k => mcaScan6.mca.getD (2 + k * 3) []))
    ∧ _demultiplex_mca mcaScan6 0 = .ok [[SFV.fin 10], [SFV.fin 13]]
    ∧ _demultiplex_mca mcaScan6 2 = .ok [[SFV.fin 12], [SFV.fin 15]] :=
  ⟨by decide, by decide,
   demultiplex_rows mcaScan6 3 0 (by decide) (by decide) (by decide),
   demultiplex_rows mcaScan6 3 2 (by decide) (by decide) (by decide),
   by decide, by decide⟩

/-- Claim C4: a non-divisible MCA layout is fatal.  Whenever the number of
MCA spectra is not an exact multiple of the number of scan data lines,
materializing any analyser's data raises the `AssertionError` of the
consistency `assert` — it never returns a (possibly truncated) array. -/
theorem demultiplex_nondivisible (scan : Scan)
    (h1 : 0 < scan.data.length)
    (h2 : scan.mca.length % scan.data.length ≠ 0) :
    ∀ i : Nat, _demultiplex_mca scan i = .error "AssertionError" := by
  intro i
  have h0 : ¬ scan.data.length = 0 := by omega
  simp [_demultiplex_mca, Scan.shape0, h0, h2]

/-- Concrete scan used by the C4 witness: 7 spectra over 2 data lines. -/
def mcaScan7 : Scan :=
  { mcaScan6 with
    mca := [[SFV.fin 10], [SFV.fin 11], [SFV.fin 12], [SFV.fin 13],
            [SFV.fin 14], [SFV.fin 15], [SFV.fin 16]] }

/-- Witness for C4: 7 spectra over 2 data lines raise the consistency
error for every requested analyser, e.g. analyser 0. -/
theorem demultiplex_nondivisible_witness :
    0 < mcaScan7.data.length
    ∧ mcaScan7.mca.length % mcaScan7.data.length ≠ 0
    ∧ _demultiplex_mca mcaScan7 0 = .error "AssertionError" :=
  ⟨by decide, by decide,
   demultiplex_nondivisible mcaScan7 (by decide) (by decide) 0⟩

/-- Claim C9: dtype coercion.  Any int, unsigned-int or float input of any
itemsize is exposed as 32-bit float with its payload unchanged; byte
string and unicode input is returned unchanged; bool, complex, object
and void input is rejected with `TypeError`. -/
theorem dataset_dtype_coercion (arr : NDArray) (name : Str) :
    ((arr.dtype.kind = DKind.i ∨ arr.dtype.kind = DKind.u ∨ arr.dtype.kind = DKind.f) →
      specFileH5Dataset_new arr name
        = .ok ⟨⟨⟨DKind.f, 4⟩, arr.payload⟩, name, _get_attrs_dict name⟩)
    ∧ ((arr.dtype.kind = DKind.S ∨ arr.dtype.kind = DKind.U) →
      specFileH5Dataset_new arr name = .ok ⟨arr, name, _get_attrs_dict name⟩)
    ∧ ((arr.dtype.kind = DKind.b ∨ arr.dtype.kind = DKind.c ∨ arr.dtype.kind = DKind.O
        ∨ arr.dtype.kind = DKind.V) →
      specFileH5Dataset_new arr name
        = .error "TypeError: Unexpected data type (expected int-, string- or float-like data)") := by
  refine ⟨?_, ?_, ?_⟩
  · rintro (h | h | h) <;> simp [specFileH5Dataset_new, h]
  · rintro (h | h) <;> simp [specFileH5Dataset_new, h]
  · rintro (h | h | h | h) <;> simp [specFileH5Dataset_new, h]

/-- Witness for C9: a float64 column is exposed as float32 with the same
values, a byte-string dataset is unchanged, and boolean input raises. -/
theorem dataset_dtype_coercion_witness :
    ((⟨⟨DKind.f, 8⟩, Payload.pvec [SFV.fin 1]⟩ : NDArray).dtype.kind = DKind.f
     ∧ specFileH5Dataset_new ⟨⟨DKind.f, 8⟩, Payload.pvec [SFV.fin 1]⟩ "/1.1/title".data
        = .ok ⟨⟨⟨DKind.f, 4⟩, Payload.pvec [SFV.fin 1]⟩, "/1.1/title".data,
            _get_attrs_dict "/1.1/title".data⟩)
    ∧ specFileH5Dataset_new ⟨⟨DKind.S, 3⟩, Payload.pstr "abc".data⟩ "/1.1/title".data
        = .ok ⟨⟨⟨DKind.S, 3⟩, Payload.pstr "abc".data⟩, "/1.1/title".data,
            _get_attrs_dict "/1.1/title".data⟩
    ∧ specFileH5Dataset_new ⟨⟨DKind.b, 1⟩, Payload.pvec [SFV.fin 0]⟩ "/1.1/title".data
        = .error "TypeError: Unexpected data type (expected int-, string- or float-like data)" :=
  ⟨⟨by decide,
    (dataset_dtype_coercion ⟨⟨DKind.f, 8⟩, Payload.pvec [SFV.fin 1]⟩ "/1.1/title".data).1
      (by decide)⟩,
   (dataset_dtype_coercion ⟨⟨DKind.S, 3⟩, Payload.pstr "abc".data⟩ "/1.1/title".data).2.1
     (by decide),
   (dataset_dtype_coercion ⟨⟨DKind.b, 1⟩, Payload.pvec [SFV.fin 0]⟩ "/1.1/title".data).2.2
     (by decide)⟩

/-- Claim C7 (evaluation): the two documented date layouts convert as the
spec says for the given examples, but the source's 11-entry month list
(it omits `May`) makes `spec_date_to_iso8601` return month `11` for a
December date — the correct ISO string would be `2016-12-11T09:54:35` —
and reject May dates that match the documented layout. -/
theorem spec_date_month_table_bug :
    spec_date_to_iso8601 "Thu Feb 11 09:54:35 2016".data none
      = .ok "2016-02-11T09:54:35".data
    ∧ spec_date_to_iso8601 "Sat 2015/03/14 03:53:50".data none
      = .ok "2015-03-14T03:53:50".data
    ∧ spec_date_to_iso8601 "Thu Dec 11 09:54:35 2016".data none
      = .ok "2016-11-11T09:54:35".data
    ∧ spec_date_to_iso8601 "Sun May 15 12:00:00 2016".data none
      = .error "ValueError: Date format not recognized" := by
  refine ⟨by decide, by decide, by decide, by decide⟩

/-- Claim C10 (counterexample): the attribute resolver does not return the
empty mapping for every metadata-free path — for an MCA timing dataset
path (which matches no pattern in the table) it returns Python `None`
(`none`), not `{}`. -/
theorem attrs_timing_none :
    _get_attrs_dict "/1.1/instrument/mca_0/preset_time".data = none
    ∧ ¬ _get_attrs_dict "/1.1/instrument/mca_0/preset_time".data = some [] := by
  refine ⟨by decide, by decide⟩

set_option maxHeartbeats 2000000 in
/-- Claim C10 (amended): the attribute lookup is a pure function of the
path's grammar category: the root, scan, instrument, positioners,
measurement, instrument-MCA and measurement-MCA-info categories carry
their `NX_class` entries, MCA-data dataset paths carry
`interpretation = "spectrum"`, the remaining table categories carry the
empty mapping, and paths outside the table (MCA timing datasets and
`info/<x>` member datasets) yield no mapping at all (`none`). -/
theorem attrs_by_category (a b i m lb x : Str)
    (ha : isDigitStr a = true) (hb : isDigitStr b = true)
    (hi : isDigitStr i = true) (hm : goodName m = true)
    (hlb : goodName lb = true) (hx : goodName x = true) :
    _get_attrs_dict (VPath.path VPath.root) = some [("NX_class".data, "NXroot".data)]
    ∧ _get_attrs_dict (VPath.path (VPath.scan a b))
        = some [("NX_class".data, "NXentry".data)]
    ∧ _get_attrs_dict (VPath.path (VPath.instrument a b))
        = some [("NX_class".data, "NXinstrument".data)]
    ∧ _get_attrs_dict (VPath.path (VPath.positioners a b))
        = some [("NX_class".data, "NXcollection".data)]
    ∧ _get_attrs_dict (VPath.path (VPath.measurement a b))
        = some [("NX_class".data, "NXcollection".data)]
    ∧ _get_attrs_dict (VPath.path (VPath.instMca a b i))
        = some [("NX_class".data, "NXdetector".data)]
    ∧ _get_attrs_dict (VPath.path (VPath.instMcaData a b i))
        = some [("interpretation".data, "spectrum".data)]
    ∧ _get_attrs_dict (VPath.path (VPath.measMcaData a b i))
        = some [("interpretation".data, "spectrum".data)]
    ∧ _get_attrs_dict (VPath.path (VPath.measMcaInfo a b i))
        = some [("NX_class".data, "NXdetector".data)]
    ∧ _get_attrs_dict (VPath.path (VPath.title a b)) = some []
    ∧ _get_attrs_dict (VPath.path (VPath.startTime a b)) = some []
    ∧ _get_attrs_dict (VPath.path (VPath.positioner a b m)) = some []
    ∧ _get_attrs_dict (VPath.path (VPath.column a b lb)) = some []
    ∧ _get_attrs_dict (VPath.path (VPath.instMcaCalib a b i)) = some []
    ∧ _get_attrs_dict (VPath.path (VPath.instMcaChann a b i)) = some []
    ∧ _get_attrs_dict (VPath.path (VPath.measMca a b i)) = some []
    ∧ _get_attrs_dict (VPath.path (VPath.instMcaPreset a b i)) = none
    ∧ _get_attrs_dict (VPath.path (VPath.instMcaElapsed a b i)) = none
    ∧ _get_attrs_dict (VPath.path (VPath.instMcaLive a b i)) = none
    ∧ _get_attrs_dict (VPath.path (VPath.measMcaInfoSub a b i x)) = none := by
  simp only [_get_attrs_dict, pattern_attrs, List.find?,
    VPath.path, root_pattern, scan_pattern, instrument_pattern,
    positioners_group_pattern, measurement_group_pattern,
    measurement_mca_group_pattern, instrument_mca_group_pattern,
    measurement_mca_info_pattern, measurement_mca_info_capture,
    title_pattern, start_time_pattern, positioners_data_pattern,
    positioners_data_capture, measurement_data_pattern, measurement_data_capture,
    instrument_mca_data_pattern, instrument_mca_data_capture,
    instrument_mca_calib_pattern, instrument_mca_chann_pattern,
    instrument_mca_preset_t_pattern, instrument_mca_elapsed_t_pattern,
    instrument_mca_live_t_pattern, measurement_mca_data_pattern,
    measurement_mca_data_capture, measurement_mca_info_dataset_pattern,
    measurement_mca_info_dataset_capture, mcaPat, oTest, lit, lits,
    sInstrument, sPositioners, sPositionersSlash, sMeasurement, sMeasurementSlash,
    sMeasMca, sInstrMca, sInfo, sInfoSlash, sTitle, sStartTime, sData, sCalibration,
    sChannels, sPresetTime, sElapsedTime, sLiveTime,
    List.cons_append, List.nil_append, List.append_assoc,
    Option.some_bind', Option.none_bind', Option.isSome_some, Option.isSome_none,
    if_true, if_false, Bool.false_or, Bool.true_or, Bool.or_false, Bool.or_true,
    scanP_eq, scanP_eq_nil,
    takeWhile_digits_ds, dropWhile_digits_ds, takeWhile_all_ds, dropDigits_all_ds,
    isEmpty_of_isDigitStr, headNotDigit_nil, headNotDigit_slash, headNotDigit_dot,
    endM_nil, endM_cons, endM_append_cons,
    optSlashEnd_nil, optSlashEnd_cons_cons, optSlashEnd_slash_goodName,
    tailName_of_goodName, tailName_mca_digits, tailName_mca_append_slash,
    ha, hb, hi, hm, hlb, hx]
  try simp

/-- Witness for C10 (amended) at concrete inputs: the root carries
`NX_class = NXroot` and a concrete MCA timing dataset path carries no
attribute mapping. -/
theorem attrs_by_category_witness :
    _get_attrs_dict (VPath.path VPath.root) = some [("NX_class".data, "NXroot".data)]
    ∧ _get_attrs_dict (VPath.path (VPath.instMcaPreset "1".data "1".data "0".data)) = none :=
  ⟨(attrs_by_category "1".data "1".data "0".data "m".data "c".data "d".data
      (by decide) (by decide) (by decide) (by decide) (by decide) (by decide)).1,
   (attrs_by_category "1".data "1".data "0".data "m".data "c".data "d".data
      (by decide) (by decide) (by decide) (by decide) (by decide)
      (by decide)).2.2.2.2.2.2.2.2.2.2.2.2.2.2.2.2.1⟩

theorem scan_key_of_path (a b r : Str) (ha : isDigitStr a = true)
    (hb : isDigitStr b = true) (hr : headNotDigit r = true) :
    _get_scan_key_in_name ('/' :: (a ++ '.' :: (b ++ r))) = some (a ++ '.' :: b) := by
  simp only [_get_scan_key_in_name, lit, if_pos rfl, if_true,
    takeWhile_digits_ds a ('.' :: (b ++ r)) ha (headNotDigit_dot _),
    dropWhile_digits_ds a ('.' :: (b ++ r)) ha (headNotDigit_dot _),
    isEmpty_of_isDigitStr a ha,
    takeWhile_digits_ds b r hb hr,
    isEmpty_of_isDigitStr b hb, if_false, Bool.false_eq_true]

/-- Claim C8: positioner precedence and sentinel preservation.  For a
positioner dataset path `/<scan>/instrument/positioners/<motor>`: if the
motor name is also a data-column label, the materializer returns the
full 1-D data column (as float32); otherwise it returns the scalar
header position; and when the position is absent from the `#P` header
map, the backing store's `+inf` sentinel is what that scalar is — it is
preserved, not replaced. -/
theorem positioner_precedence (sf : SpecFile) (scan : Scan) (a b m : Str)
    (col : List SFV)
    (ha : isDigitStr a = true) (hb : isDigitStr b = true) (hm : goodName m = true)
    (hget : sf.get (a ++ '.' :: b) = some scan) :
    (scan.labels.contains m = true →
      scan.data_column_by_name m = Except.ok col →
      _dataset_builder ('/' :: (a ++ '.' :: (b ++ (sPositionersSlash ++ m)))) sf
        = .ok ⟨⟨⟨DKind.f, 4⟩, Payload.pvec col⟩,
            '/' :: (a ++ '.' :: (b ++ (sPositionersSlash ++ m))),
            _get_attrs_dict ('/' :: (a ++ '.' :: (b ++ (sPositionersSlash ++ m))))⟩)
    ∧ (scan.labels.contains m = false →
      _dataset_builder ('/' :: (a ++ '.' :: (b ++ (sPositionersSlash ++ m)))) sf
        = .ok ⟨⟨⟨DKind.f, 4⟩, Payload.pscalar (scan.motor_position_by_name m)⟩,
            '/' :: (a ++ '.' :: (b ++ (sPositionersSlash ++ m))),
            _get_attrs_dict ('/' :: (a ++ '.' :: (b ++ (sPositionersSlash ++ m))))⟩)
    ∧ (scan.motor_positions.lookup m = none →
      scan.motor_position_by_name m = SFV.inf) := by
  have hnds : headNotDigit (sPositionersSlash ++ m) = true := by
    simp [sPositionersSlash, sPositioners, sInstrument, headNotDigit_slash]
  have hkey := scan_key_of_path a b (sPositionersSlash ++ m) ha hb hnds
  have hscan := scanP_eq a b (sPositionersSlash ++ m) ha hb hnds
  have htitle : lits sTitle (sPositionersSlash ++ m) = none := by
    simp [sTitle, sPositionersSlash, sPositioners, sInstrument, lits]
  have hstart : lits sStartTime (sPositionersSlash ++ m) = none := by
    simp [sStartTime, sPositionersSlash, sPositioners, sInstrument, lits]
  have hposlits : lits sPositionersSlash (sPositionersSlash ++ m) = some m :=
    lits_self_append _ _
  refine ⟨?_, ?_, ?_⟩
  · intro hin hcol
    have hmem : m ∈ scan.labels := by
      have := hin
      simpa [List.contains] using this
    simp only [_dataset_builder, hkey, title_pattern, start_time_pattern,
      positioners_data_pattern, positioners_data_capture, oTest,
      hscan, Option.some_bind', htitle, hstart, hposlits,
      tailName_of_goodName m hm, if_true, if_false, Option.isSome_some,
      Option.isSome_none, Option.getD_some, pure_bind, bind_assoc,
      eq_self_iff_true, Bool.false_eq_true, hget, hmem, hcol]
    simp [hmem, Except.instMonad, Except.bind, specFileH5Dataset_new, float64]
  · intro hnin
    have hnmem : ¬ m ∈ scan.labels := by
      have := hnin
      simpa [List.contains] using this
    simp only [_dataset_builder, hkey, title_pattern, start_time_pattern,
      positioners_data_pattern, positioners_data_capture, oTest,
      hscan, Option.some_bind', htitle, hstart, hposlits,
      tailName_of_goodName m hm, if_true, if_false, Option.isSome_some,
      Option.isSome_none, Option.getD_some, pure_bind, bind_assoc,
      eq_self_iff_true, Bool.false_eq_true, hget, hnmem]
    simp [hnmem, Except.instMonad, Except.bind, specFileH5Dataset_new, float64]
  · intro hmiss
    simp [Scan.motor_position_by_name, hmiss]

/-- Concrete backing file for the C8 witness: motor `"Pslit HGap"` appears
both as a `#P` header position and as a data-column label; motor
`"absent"` is declared in `#O` but has no `#P` position. -/
def posScan : Scan :=
  { header_S := none
    header_D := none
    file_header_D := none
    labels := ["Pslit HGap".data]
    data := [[SFV.fin 1], [SFV.fin 2]]
    motor_names := ["Pslit HGap".data, "absent".data]
    motor_positions := [("Pslit HGap".data, SFV.fin 5)]
    mca := []
    mca_calibration := []
    mca_channels := []
    mca_header_CTIME := none }

/-- Backing file wrapping `posScan`. -/
def posSF : SpecFile := ⟨[("1.1".data, posScan)]⟩

/-- Witness for C8: `positioners/Pslit HGap` returns the full data column,
not the scalar header value; `positioners/absent` returns the scalar
`+inf` sentinel. -/
theorem positioner_precedence_witness :
    _dataset_builder
        ('/' :: ("1".data ++ '.' :: ("1".data ++ (sPositionersSlash ++ "Pslit HGap".data))))
        posSF
      = .ok ⟨⟨⟨DKind.f, 4⟩, Payload.pvec [SFV.fin 1, SFV.fin 2]⟩,
          '/' :: ("1".data ++ '.' :: ("1".data ++ (sPositionersSlash ++ "Pslit HGap".data))),
          _get_attrs_dict
            ('/' :: ("1".data ++ '.' :: ("1".data ++ (sPositionersSlash ++ "Pslit HGap".data))))⟩
    ∧ _dataset_builder
        ('/' :: ("1".data ++ '.' :: ("1".data ++ (sPositionersSlash ++ "absent".data))))
        posSF
      = .ok ⟨⟨⟨DKind.f, 4⟩, Payload.pscalar (posScan.motor_position_by_name "absent".data)⟩,
          '/' :: ("1".data ++ '.' :: ("1".data ++ (sPositionersSlash ++ "absent".data))),
          _get_attrs_dict
            ('/' :: ("1".data ++ '.' :: ("1".data ++ (sPositionersSlash ++ "absent".data))))⟩
    ∧ posScan.motor_position_by_name "absent".data = SFV.inf :=
  ⟨(positioner_precedence posSF posScan "1".data "1".data "Pslit HGap".data
      [SFV.fin 1, SFV.fin 2] (by decide) (by decide) (by decide) (by decide)).1
      (by decide) (by decide),
   (positioner_precedence posSF posScan "1".data "1".data "absent".data []
      (by decide) (by decide) (by decide) (by decide)).2.1 (by decide),
   (positioner_precedence posSF posScan "1".data "1".data "absent".data []
      (by decide) (by decide) (by decide) (by decide)).2.2 (by decide)⟩

theorem all_takeWhile_p (p : Char → Bool) : ∀ l : Str, (l.takeWhile p).all p = true := by
  intro l
  induction l with
  | nil => simp
  | cons c t ih =>
    by_cases hc : p c
    · simp [List.takeWhile_cons, hc, ih]
    · simp [List.takeWhile_cons, hc]

theorem headNotDigit_dropDigits (l : Str) : headNotDigit (dropDigits l) = true := by
  induction l with
  | nil => rfl
  | cons c t ih =>
    by_cases hc : isDigitC c
    · simpa [dropDigits, List.dropWhile_cons, hc] using ih
    · simp [dropDigits, List.dropWhile_cons, hc, headNotDigit]

theorem inv_lit (c : Char) (l r : Str) (h : lit c l = some r) : l = c :: r := by
  cases l with
  | nil => exact Option.noConfusion h
  | cons d t =>
    simp only [lit] at h
    by_cases hd : d = c
    · rw [if_pos hd] at h
      simp only [Option.some.injEq] at h
      rw [hd, h]
    · rw [if_neg hd] at h
      exact Option.noConfusion h

theorem inv_digits1 (l r : Str) (h : digits1 l = some r) :
    ∃ d, l = d ++ r ∧ isDigitStr d = true ∧ headNotDigit r = true := by
  cases l with
  | nil => exact Option.noConfusion h
  | cons c t =>
    simp only [digits1] at h
    by_cases hc : isDigitC c
    · rw [if_pos hc] at h
      simp only [Option.some.injEq] at h
      refine ⟨c :: t.takeWhile isDigitC, ?_, ?_, ?_⟩
      · rw [← h]
        simp [dropDigits, List.takeWhile_append_dropWhile]
      · simp [isDigitStr, hc, all_takeWhile_p]
      · rw [← h]
        exact headNotDigit_dropDigits t
    · rw [if_neg hc] at h
      exact Option.noConfusion h

theorem inv_scanP (l r : Str) (h : scanP l = some r) :
    ∃ a b, l = '/' :: (a ++ '.' :: (b ++ r))
      ∧ isDigitStr a = true ∧ isDigitStr b = true := by
  simp only [scanP] at h
  rcases Option.bind_eq_some.mp h with ⟨l3, h3, hd3⟩
  rcases Option.bind_eq_some.mp h3 with ⟨l2, h2, hdot⟩
  rcases Option.bind_eq_some.mp h2 with ⟨l1, h1, hd1⟩
  rcases inv_digits1 l3 r hd3 with ⟨b, hb1, hb2, _⟩
  rcases inv_digits1 l1 l2 hd1 with ⟨a, ha1, ha2, _⟩
  have hl := inv_lit '/' l l1 h1
  have hl2 := inv_lit '.' l2 l3 hdot
  refine ⟨a, b, ?_, ha2, hb2⟩
  rw [hl, ha1, hl2, hb1]

theorem inv_mcaPat (pre suf : Str) (fin : Str → Bool) (l d : Str)
    (h : mcaPat pre suf fin l = some d) :
    ∃ a b rest, l = '/' :: (a ++ '.' :: (b ++ (pre ++ (d ++ (suf ++ rest)))))
      ∧ isDigitStr a = true ∧ isDigitStr b = true ∧ isDigitStr d = true
      ∧ fin rest = true := by
  simp only [mcaPat] at h
  split at h
  · exact Option.noConfusion h
  · rename_i r0 hm0
    split at h
    · exact Option.noConfusion h
    · rename_i hne
      split at h
      · rename_i rest hrest
        split at h
        · rename_i hf
          simp only [Option.some.injEq] at h
          rcases Option.bind_eq_some.mp hm0 with ⟨r1, hs, hp⟩
          rcases inv_scanP l r1 hs with ⟨a, b, hl, ha, hb⟩
          refine ⟨a, b, rest, ?_, ha, hb, ?_, hf⟩
          · rw [hl, lits_sound pre r1 r0 hp, ← h]
            have hsplit : r0 = r0.takeWhile isDigitC ++ dropDigits r0 := by
              simp [dropDigits, List.takeWhile_append_dropWhile]
            rw [lits_sound suf (dropDigits r0) rest hrest] at hsplit
            rw [← hsplit]
          · rw [← h]
            simp only [isDigitStr, Bool.and_eq_true]
            constructor
            · simpa using hne
            · exact all_takeWhile_p isDigitC r0
        · exact Option.noConfusion h
      · exact Option.noConfusion h

theorem inv_info_dataset (l x : Str)
    (h : measurement_mca_info_dataset_capture l = some x) :
    ∃ a b i, l = '/' :: (a ++ '.' :: (b ++ (sMeasMca ++ (i ++ (sInfoSlash ++ x)))))
      ∧ isDigitStr a = true ∧ isDigitStr b = true ∧ isDigitStr i = true
      ∧ tailName x = true := by
  simp only [measurement_mca_info_dataset_capture] at h
  split at h
  · exact Option.noConfusion h
  · rename_i r0 hm0
    split at h
    · exact Option.noConfusion h
    · rename_i hne
      split at h
      · rename_i rest hrest
        split at h
        · rename_i hf
          simp only [Option.some.injEq] at h
          rcases Option.bind_eq_some.mp hm0 with ⟨r1, hs, hp⟩
          rcases inv_scanP l r1 hs with ⟨a, b, hl, ha, hb⟩
          refine ⟨a, b, r0.takeWhile isDigitC, ?_, ha, hb, ?_, ?_⟩
          · rw [hl, lits_sound sMeasMca r1 r0 hp, ← h]
            have hsplit : r0 = r0.takeWhile isDigitC ++ dropDigits r0 := by
              simp [dropDigits, List.takeWhile_append_dropWhile]
            rw [lits_sound sInfoSlash (dropDigits r0) rest hrest] at hsplit
            conv_lhs => rw [hsplit]
          · simp only [isDigitStr, Bool.and_eq_true]
            constructor
            · simpa using hne
            · exact all_takeWhile_p isDigitC r0
          · rw [← h]; exact hf
        · exact Option.noConfusion h
      · exact Option.noConfusion h
theorem link_name_not_group (l : Str)
    (h : is_link_to_dataset l = true ∨ is_link_to_group l = true) :
    is_group l = false := by
  rcases h with h | h
  · simp only [is_link_to_dataset, _bulk_match, List.any_cons, List.any_nil,
      Bool.or_false, Bool.or_eq_true] at h
    rcases h with h | h
    · simp only [measurement_mca_data_pattern, measurement_mca_data_capture] at h
      rcases Option.isSome_iff_exists.mp h with ⟨d2, hd⟩
      rcases inv_mcaPat sMeasMca sData endM l d2 hd with
        ⟨a, b, rest, hl, ha, hb, hd2, hfin⟩
      have hrest : rest = [] := by simpa [endM] using hfin
      subst hrest
      rw [hl]
      simp only [is_group, _bulk_match, List.any_cons, List.any_nil,
        root_pattern, scan_pattern, instrument_pattern, positioners_group_pattern,
        measurement_group_pattern, measurement_mca_group_pattern, instrument_mca_group_pattern,
        mcaPat, oTest, lit, lits,
        sInstrument, sPositioners, sPositionersSlash, sMeasurement, sMeasurementSlash,
        sMeasMca, sInstrMca, sInfo, sInfoSlash, sTitle, sStartTime, sData, sCalibration,
        sChannels, sPresetTime, sElapsedTime, sLiveTime,
        List.cons_append, List.nil_append, List.append_assoc, List.append_nil,
        Option.some_bind', Option.none_bind', Option.isSome_some, Option.isSome_none,
        if_true, if_false,
        Bool.false_or, Bool.true_or, Bool.or_false, Bool.or_true,
        scanP_eq, scanP_eq_nil,
        takeWhile_digits_ds, dropWhile_digits_ds, takeWhile_all_ds, dropDigits_all_ds,
        isEmpty_of_isDigitStr,
        headNotDigit_nil, headNotDigit_slash, headNotDigit_dot,
        endM_nil, endM_cons, endM_append_cons,
        optSlashEnd_nil, optSlashEnd_cons_cons,
        ha, hb, hd2]
      try simp
    · simp only [measurement_mca_info_dataset_pattern] at h
      rcases Option.isSome_iff_exists.mp h with ⟨x, hx⟩
      rcases inv_info_dataset l x hx with ⟨a, b, i, hl, ha, hb, hi, htn⟩
      rw [hl]
      simp only [is_group, _bulk_match, List.any_cons, List.any_nil,
        root_pattern, scan_pattern, instrument_pattern, positioners_group_pattern,
        measurement_group_pattern, measurement_mca_group_pattern, instrument_mca_group_pattern,
        mcaPat, oTest, lit, lits,
        sInstrument, sPositioners, sPositionersSlash, sMeasurement, sMeasurementSlash,
        sMeasMca, sInstrMca, sInfo, sInfoSlash, sTitle, sStartTime, sData, sCalibration,
        sChannels, sPresetTime, sElapsedTime, sLiveTime,
        List.cons_append, List.nil_append, List.append_assoc, List.append_nil,
        Option.some_bind', Option.none_bind', Option.isSome_some, Option.isSome_none,
        if_true, if_false,
        Bool.false_or, Bool.true_or, Bool.or_false, Bool.or_true,
        scanP_eq, scanP_eq_nil,
        takeWhile_digits_ds, dropWhile_digits_ds, takeWhile_all_ds, dropDigits_all_ds,
        isEmpty_of_isDigitStr,
        headNotDigit_nil, headNotDigit_slash, headNotDigit_dot,
        endM_nil, endM_cons, endM_append_cons,
        optSlashEnd_nil, optSlashEnd_cons_cons,
        ha, hb, hi]
      try simp
  · simp only [is_link_to_group, measurement_mca_info_pattern,
      measurement_mca_info_capture, if_true, if_false] at h
    have h2 : (mcaPat sMeasMca sInfo optSlashEnd l).isSome = true := by
      by_cases hs : (mcaPat sMeasMca sInfo optSlashEnd l).isSome = true
      · exact hs
      · rw [if_neg hs] at h
        exact absurd h (by simp)
    rcases Option.isSome_iff_exists.mp h2 with ⟨d2, hd⟩
    rcases inv_mcaPat sMeasMca sInfo optSlashEnd l d2 hd with
      ⟨a, b, rest, hl, ha, hb, hd2, hfin⟩
    have hrest : rest = [] ∨ rest = ['/'] := by simpa [optSlashEnd] using hfin
    rcases hrest with rfl | rfl
    · rw [hl]
      simp only [is_group, _bulk_match, List.any_cons, List.any_nil,
        root_pattern, scan_pattern, instrument_pattern, positioners_group_pattern,
        measurement_group_pattern, measurement_mca_group_pattern, instrument_mca_group_pattern,
        mcaPat, oTest, lit, lits,
        sInstrument, sPositioners, sPositionersSlash, sMeasurement, sMeasurementSlash,
        sMeasMca, sInstrMca, sInfo, sInfoSlash, sTitle, sStartTime, sData, sCalibration,
        sChannels, sPresetTime, sElapsedTime, sLiveTime,
        List.cons_append, List.nil_append, List.append_assoc, List.append_nil,
        Option.some_bind', Option.none_bind', Option.isSome_some, Option.isSome_none,
        if_true, if_false,
        Bool.false_or, Bool.true_or, Bool.or_false, Bool.or_true,
        scanP_eq, scanP_eq_nil,
        takeWhile_digits_ds, dropWhile_digits_ds, takeWhile_all_ds, dropDigits_all_ds,
        isEmpty_of_isDigitStr,
        headNotDigit_nil, headNotDigit_slash, headNotDigit_dot,
        endM_nil, endM_cons, endM_append_cons,
        optSlashEnd_nil, optSlashEnd_cons_cons,
        ha, hb, hd2]
      try simp
    · rw [hl]
      simp only [is_group, _bulk_match, List.any_cons, List.any_nil,
        root_pattern, scan_pattern, instrument_pattern, positioners_group_pattern,
        measurement_group_pattern, measurement_mca_group_pattern, instrument_mca_group_pattern,
        mcaPat, oTest, lit, lits,
        sInstrument, sPositioners, sPositionersSlash, sMeasurement, sMeasurementSlash,
        sMeasMca, sInstrMca, sInfo, sInfoSlash, sTitle, sStartTime, sData, sCalibration,
        sChannels, sPresetTime, sElapsedTime, sLiveTime,
        List.cons_append, List.nil_append, List.append_assoc, List.append_nil,
        Option.some_bind', Option.none_bind', Option.isSome_some, Option.isSome_none,
        if_true, if_false,
        Bool.false_or, Bool.true_or, Bool.or_false, Bool.or_true,
        scanP_eq, scanP_eq_nil,
        takeWhile_digits_ds, dropWhile_digits_ds, takeWhile_all_ds, dropDigits_all_ds,
        isEmpty_of_isDigitStr,
        headNotDigit_nil, headNotDigit_slash, headNotDigit_dot,
        endM_nil, endM_cons, endM_append_cons,
        optSlashEnd_nil, optSlashEnd_cons_cons,
        ha, hb, hd2]
      try simp
theorem group_entry_is_group (sf : SpecFile) (g k n : Str)
    (h : groupGetitem sf g k = .ok (Entry.group n)) : is_group n = true := by
  simp only [groupGetitem] at h
  split at h
  · exact Except.noConfusion h
  · rename_i full_key hfk
    by_cases hig : is_group full_key = true
    · rw [if_pos hig] at h
      simp only [mkGroup] at h
      split at h
      · rename_i hroot
        simp only [Except.ok.injEq, Entry.group.injEq] at h
        rw [← h, hroot]
        decide
      · rename_i hroot
        split at h
        · exact Except.noConfusion h
        · rename_i sk hsk
          split at h
          · simp only [Except.ok.injEq, Entry.group.injEq] at h
            rw [← h]
            exact hig
          · exact Except.noConfusion h
    · rw [if_neg hig] at h
      split at h
      · rename_i hds
        cases hdb : _dataset_builder full_key sf with
        | error e =>
          rw [hdb] at h
          exact Except.noConfusion h
        | ok d =>
          rw [hdb] at h
          simp only [Except.map_ok] at h
          simp only [Except.ok.injEq] at h
          exact Entry.noConfusion h
      · rename_i hds
        split at h
        · rename_i hlg
          simp only [mkLinkToGroup] at h
          split at h
          · exact Except.noConfusion h
          · rename_i sk hsk
            split at h
            · simp only [Except.ok.injEq] at h
              exact Entry.noConfusion h
            · exact Except.noConfusion h
        · rename_i hlg
          split at h
          · rename_i hld
            cases hdb : _link_to_dataset_builder full_key sf with
            | error e =>
              rw [hdb] at h
              exact Except.noConfusion h
            | ok d =>
              rw [hdb] at h
              simp only [Except.map_ok] at h
              simp only [Except.ok.injEq] at h
              exact Entry.noConfusion h
          · exact Except.noConfusion h
theorem visitList_trace_of_aux {α : Type} (sf : SpecFile) (f : Str → Option α)
    (recurse : Str → Except String (Option α × List Str))
    (haux : ∀ (g : Str) (r : Option α) (tr : List Str),
      recurse g = .ok (r, tr) →
      ∀ p ∈ tr, is_link_to_dataset p = false ∧ is_link_to_group p = false) :
    ∀ (ks : List Str) (g : Str) (r : Option α) (tr : List Str),
      visitList sf f recurse g ks = .ok (r, tr) →
      ∀ p ∈ tr, is_link_to_dataset p = false ∧ is_link_to_group p = false := by
  intro ks
  induction ks with
  | nil =>
    intro g r tr h p hp
    simp only [visitList, Except.ok.injEq, Prod.mk.injEq] at h
    rw [← h.2] at hp
    simp at hp
  | cons k rest ihk =>
    intro g r tr h p hp
    simp only [visitList] at h
    split at h
    · exact Except.noConfusion h
    · rename_i member heq
      cases hcall : (!(is_link_to_dataset (resolveRel g k))
          && !(is_link_to_group (resolveRel g k))) with
      | false =>
        rw [hcall] at h
        simp only [Bool.false_eq_true, if_false] at h
        split at h
        · exact Except.noConfusion h
        · rename_i rsub trSub hsub
          split at h
          · exact Except.noConfusion h
          · rename_i rrest trRest hrest
            simp only [Except.ok.injEq, Prod.mk.injEq] at h
            rw [← h.2] at hp
            simp only [List.nil_append, List.mem_append] at hp
            rcases hp with hp | hp
            · rcases member with sub | sub | d | d <;> simp only [] at hsub
              · exact haux sub rsub trSub hsub p hp
              all_goals
                · simp only [Except.ok.injEq, Prod.mk.injEq] at hsub
                  rw [← hsub.2] at hp
                  simp at hp
            · exact ihk g rrest trRest hrest p hp
      | true =>
        rw [hcall] at h
        simp only [if_true] at h
        have hgood : is_link_to_dataset (resolveRel g k) = false
            ∧ is_link_to_group (resolveRel g k) = false := by
          have h2 := hcall
          simp only [Bool.and_eq_true, Bool.not_eq_true'] at h2
          exact h2
        split at h
        · rename_i v hf
          simp only [Except.ok.injEq, Prod.mk.injEq] at h
          rw [← h.2] at hp
          simp only [List.mem_singleton] at hp
          rw [hp]
          exact hgood
        · rename_i hf
          split at h
          · exact Except.noConfusion h
          · rename_i rsub trSub hsub
            split at h
            · exact Except.noConfusion h
            · rename_i rrest trRest hrest
              simp only [Except.ok.injEq, Prod.mk.injEq] at h
              rw [← h.2] at hp
              simp only [List.cons_append, List.nil_append, List.mem_cons,
                List.mem_append] at hp
              rcases hp with hp | hp | hp
              · rw [hp]; exact hgood
              · rcases member with sub | sub | d | d <;> simp only [] at hsub
                · exact haux sub rsub trSub hsub p hp
                all_goals
                  · simp only [Except.ok.injEq, Prod.mk.injEq] at hsub
                    rw [← hsub.2] at hp
                    simp at hp
              · exact ihk g rrest trRest hrest p hp

theorem visitAux_trace {α : Type} (sf : SpecFile) (f : Str → Option α) :
    ∀ (fuel : Nat) (g : Str) (r : Option α) (tr : List Str),
      visitAux sf f fuel g = .ok (r, tr) →
      ∀ p ∈ tr, is_link_to_dataset p = false ∧ is_link_to_group p = false := by
  intro fuel
  induction fuel with
  | zero =>
    intro g r tr h
    exact absurd h (by simp [visitAux])
  | succ fuel ih =>
    intro g r tr h
    simp only [visitAux] at h
    split at h
    · exact Except.noConfusion h
    · rename_i ks hks
      exact visitList_trace_of_aux sf f (visitAux sf f fuel) ih ks g r tr h
theorem group_entry_not_link (sf : SpecFile) (g k n : Str)
    (h : groupGetitem sf g k = .ok (Entry.group n)) :
    is_link_to_dataset n = false ∧ is_link_to_group n = false := by
  have hig := group_entry_is_group sf g k n h
  constructor
  · by_cases hld : is_link_to_dataset n = true
    · rw [link_name_not_group n (Or.inl hld)] at hig
      exact Bool.noConfusion hig
    · simpa using hld
  · by_cases hlg : is_link_to_group n = true
    · rw [link_name_not_group n (Or.inr hlg)] at hig
      exact Bool.noConfusion hig
    · simpa using hlg

theorem visititemsList_trace_of_aux {α : Type} (sf : SpecFile)
    (f : Str → Entry → Option α)
    (recurse : Str → Except String (Option α × List Str))
    (haux : ∀ (g : Str) (r : Option α) (tr : List Str),
      recurse g = .ok (r, tr) →
      ∀ p ∈ tr, is_link_to_dataset p = false) :
    ∀ (ks : List Str) (g : Str) (r : Option α) (tr : List Str),
      visititemsList sf f recurse g ks = .ok (r, tr) →
      ∀ p ∈ tr, is_link_to_dataset p = false := by
  intro ks
  induction ks with
  | nil =>
    intro g r tr h p hp
    simp only [visititemsList, Except.ok.injEq, Prod.mk.injEq] at h
    rw [← h.2] at hp
    simp at hp
  | cons k rest ihk =>
    intro g r tr h p hp
    simp only [visititemsList] at h
    split at h
    · exact Except.noConfusion h
    · rename_i member heq
      cases hcall : (!(is_link_to_dataset (resolveRel g k))) with
      | false =>
        rw [hcall] at h
        simp only [Bool.false_eq_true, if_false] at h
        split at h
        · exact Except.noConfusion h
        · rename_i rsub trSub hsub
          split at h
          · exact Except.noConfusion h
          · rename_i rrest trRest hrest
            simp only [Except.ok.injEq, Prod.mk.injEq] at h
            rw [← h.2] at hp
            simp only [List.nil_append, List.mem_append] at hp
            rcases hp with hp | hp
            · rcases member with sub | sub | d | d <;> simp only [] at hsub
              · exact haux sub rsub trSub hsub p hp
              all_goals
                · simp only [Except.ok.injEq, Prod.mk.injEq] at hsub
                  rw [← hsub.2] at hp
                  simp at hp
            · exact ihk g rrest trRest hrest p hp
      | true =>
        rw [hcall] at h
        simp only [if_true] at h
        have hgood : is_link_to_dataset (resolveRel g k) = false := by
          have h2 := hcall
          simp only [Bool.not_eq_true'] at h2
          exact h2
        split at h
        · rename_i v hf
          simp only [Except.ok.injEq, Prod.mk.injEq] at h
          rw [← h.2] at hp
          simp only [List.mem_singleton] at hp
          rw [hp]
          exact hgood
        · rename_i hf
          split at h
          · exact Except.noConfusion h
          · rename_i rsub trSub hsub
            split at h
            · exact Except.noConfusion h
            · rename_i rrest trRest hrest
              simp only [Except.ok.injEq, Prod.mk.injEq] at h
              rw [← h.2] at hp
              simp only [List.cons_append, List.nil_append, List.mem_cons,
                List.mem_append] at hp
              rcases hp with hp | hp | hp
              · rw [hp]; exact hgood
              · rcases member with sub | sub | d | d <;> simp only [] at hsub
                · exact haux sub rsub trSub hsub p hp
                all_goals
                  · simp only [Except.ok.injEq, Prod.mk.injEq] at hsub
                    rw [← hsub.2] at hp
                    simp at hp
              · exact ihk g rrest trRest hrest p hp

theorem visititemsAux_trace {α : Type} (sf : SpecFile) (f : Str → Entry → Option α) :
    ∀ (fuel : Nat) (g : Str) (r : Option α) (tr : List Str),
      visititemsAux sf f fuel g = .ok (r, tr) →
      ∀ p ∈ tr, is_link_to_dataset p = false := by
  intro fuel
  induction fuel with
  | zero =>
    intro g r tr h
    exact absurd h (by simp [visititemsAux])
  | succ fuel ih =>
    intro g r tr h
    simp only [visititemsAux] at h
    split at h
    · exact Except.noConfusion h
    · rename_i ks hks
      exact visititemsList_trace_of_aux sf f (visititemsAux sf f fuel) ih ks g r tr h

/-- Concrete backing file used to evaluate the traversal claims: two scans
(`1.1`, `2.1`), each with one data column, one motor, and one MCA
analyser (2 spectra over 2 data lines). -/
def demoScan : Scan :=
  { header_S := some "1  ascan  demo".data
    header_D := some "Thu Feb 11 09:54:35 2016".data
    file_header_D := none
    labels := ["col0".data]
    data := [[SFV.fin 1], [SFV.fin 2]]
    motor_names := ["mot".data]
    motor_positions := [("mot".data, SFV.fin 5)]
    mca := [[SFV.fin 10], [SFV.fin 20]]
    mca_calibration := [SFV.fin 0, SFV.fin 1, SFV.fin 0]
    mca_channels := [SFV.fin 0]
    mca_header_CTIME := none }

/-- Backing file with scans `1.1` and `2.1`, both equal to `demoScan`. -/
def demoSF : SpecFile := ⟨[("1.1".data, demoScan), ("2.1".data, demoScan)]⟩

/-- Trace of a full `visit` traversal of `demoSF` from the root. -/
def demoVisitTrace : List Str :=
  ["/1.1".data, "/1.1/title".data, "/1.1/start_time".data, "/1.1/instrument".data,
   "/1.1/instrument/positioners".data, "/1.1/instrument/positioners/mot".data,
   "/1.1/instrument/mca_0".data, "/1.1/instrument/mca_0/data".data,
   "/1.1/instrument/mca_0/calibration".data, "/1.1/instrument/mca_0/channels".data,
   "/1.1/measurement".data, "/1.1/measurement/col0".data,
   "/1.1/measurement/mca_0".data,
   "/2.1".data, "/2.1/title".data, "/2.1/start_time".data, "/2.1/instrument".data,
   "/2.1/instrument/positioners".data, "/2.1/instrument/positioners/mot".data,
   "/2.1/instrument/mca_0".data, "/2.1/instrument/mca_0/data".data,
   "/2.1/instrument/mca_0/calibration".data, "/2.1/instrument/mca_0/channels".data,
   "/2.1/measurement".data, "/2.1/measurement/col0".data,
   "/2.1/measurement/mca_0".data]

/-- Trace component of a traversal result (`[]` for an exception). -/
def traceOf {α : Type} (e : Except String (Option α × List Str)) : List Str :=
  match e with
  | .ok (_, tr) => tr
  | .error _ => []

/-- Claim C5 (amended): `visit` never invokes its callback on a link-typed
child (neither a link to a dataset nor a link to a group); `visititems`
never invokes its callback on a link-to-dataset child (it does invoke
it on link-to-group children, see the counterexample); and neither
traversal recurses below a link-typed child: the only members either
traversal recurses into are plain `Entry.group` members, and the name
of such a member is never link-typed. -/
theorem visit_link_suppression :
    (∀ (α : Type) (sf : SpecFile) (f : Str → Option α) (fuel : Nat) (g : Str)
        (r : Option α) (tr : List Str) (p : Str),
      visitAux sf f fuel g = .ok (r, tr) → p ∈ tr →
      is_link_to_dataset p = false ∧ is_link_to_group p = false)
    ∧ (∀ (α : Type) (sf : SpecFile) (f : Str → Entry → Option α) (fuel : Nat)
        (g : Str) (r : Option α) (tr : List Str) (p : Str),
      visititemsAux sf f fuel g = .ok (r, tr) → p ∈ tr →
      is_link_to_dataset p = false)
    ∧ (∀ (sf : SpecFile) (g k n : Str),
      groupGetitem sf g k = .ok (Entry.group n) →
      is_link_to_dataset n = false ∧ is_link_to_group n = false) :=
  ⟨fun _ sf f fuel g r tr p h hp => visitAux_trace sf f fuel g r tr h p hp,
   fun _ sf f fuel g r tr p h hp => visititemsAux_trace sf f fuel g r tr h p hp,
   group_entry_not_link⟩

/-- Counterexample for C5 as stated: `visititems` does invoke the supplied
callback on the link-to-group child `measurement/mca_0/info`. -/
theorem visititems_calls_callback_on_link_to_group :
    is_link_to_group "/1.1/measurement/mca_0/info".data = true
    ∧ "/1.1/measurement/mca_0/info".data
        ∈ traceOf (visititemsAux demoSF (fun _ _ => (none : Option Nat)) 8 "/".data) :=
  ⟨by decide, by decide⟩

/-- Witness for C5 (amended) on the concrete demo file: the path
`/1.1/title` occurs in a full `visit` trace and is not link-typed. -/
theorem visit_link_suppression_witness :
    is_link_to_dataset "/1.1/title".data = false
    ∧ is_link_to_group "/1.1/title".data = false :=
  visit_link_suppression.1 Nat demoSF (fun _ => none) 8 "/".data none
    demoVisitTrace "/1.1/title".data (by decide) (by decide)

/-- Claim C2 (evaluation at the failing input): for the link-to-group
`/1.1/measurement/mca_0/info`, `keys()` lists `data`, `"data" in group`
is true, yet `group["data"]` raises `KeyError` — the link-to-dataset
builder handles only `calibration` and `channels` under `info/` (the
sibling key `calibration` does materialize). -/
theorem info_group_roundtrip_bug :
    groupKeys demoSF "/1.1/measurement/mca_0/info".data
      = .ok ["data".data, "calibration".data, "channels".data]
    ∧ groupContains demoSF "/1.1/measurement/mca_0/info".data "data".data = .ok true
    ∧ groupGetitem demoSF "/1.1/measurement/mca_0/info".data "data".data
      = .error "KeyError: Name does not match any known dataset"
    ∧ (groupGetitem demoSF "/1.1/measurement/mca_0/info".data "calibration".data).isOk
        = true :=
  ⟨by decide, by decide, by decide, by decide⟩

/-- Claim C6 (evaluation at the failing input): during `visit` from the
root, the callback returns `some 0` on the nested member `/1.1/title`;
the inner loop stops, but the recursive call's value is discarded, so
the top-level `visit` returns `none` and goes on to traverse scan `2.1`
— the claim (and the method's own docstring) say the value `0` should
have been returned and the traversal stopped. -/
theorem visit_early_exit_lost :
    visitAux demoSF (fun n => if n = "/1.1/title".data then some 0 else none)
        8 "/".data
      = .ok (none,
          ["/1.1".data, "/1.1/title".data,
           "/2.1".data, "/2.1/title".data, "/2.1/start_time".data,
           "/2.1/instrument".data, "/2.1/instrument/positioners".data,
           "/2.1/instrument/positioners/mot".data, "/2.1/instrument/mca_0".data,
           "/2.1/instrument/mca_0/data".data,
           "/2.1/instrument/mca_0/calibration".data,
           "/2.1/instrument/mca_0/channels".data, "/2.1/measurement".data,
           "/2.1/measurement/col0".data, "/2.1/measurement/mca_0".data])
    ∧ (fun n => if n = "/1.1/title".data then some 0 else none) "/1.1/title".data
        = some 0 :=
  ⟨by decide, by decide⟩

example : is_group "/1.1".data = true := by decide
example : is_group "/1.1/measurement/mca_0".data = true := by decide
example : is_dataset "/1.1/measurement/mca_0".data = false := by decide
example : is_dataset "/12.4/title".data = true := by decide
example : is_dataset "/1.1/instrument/positioners/Pslit HGap".data = true := by decide
example : is_link_to_group "/1.1/measurement/mca_0/info".data = true := by decide
example : is_link_to_dataset "/1.1/measurement/mca_0/data".data = true := by decide
example : is_link_to_dataset "/1.1/measurement/mca_0/info/channels".data = true := by decide
example : is_group "/1.1/measurement".data = true := by decide
example : is_dataset "/1.1/instrument/mca_10/preset_time".data = true := by decide

end SpecFileH5
